import Mathlib

/-!
Verification development for a small batch ETL pipeline (`etl.py` driven by the
static configuration in `config.py`).

The embedding models pandas dataframes as lists of association-list rows
together with an ordered column list.  The OLTP source database is a total
function from physical table name to dataframe; the warehouse is a total
function from destination table name to dataframe.  The SQL statements the
pipeline issues (`SELECT *`, `SELECT key FROM t`, the append-only `to_sql`,
and the `dm_sales` TRUNCATE + INSERT ... SELECT join) are modelled directly
over those states.  Store-side integrity constraints (NOT NULL / FOREIGN KEY)
and the auto-generated `sale_id SERIAL` column of `dm_sales` are not modelled:
no claim under consideration depends on a constraint violation.

Null handling follows the two libraries the code delegates to:
pandas `merge` and `isin` treat null keys as equal to each other, while the
SQL join predicates of the mart query treat NULL as equal to nothing.
-/

/-- A cell value: SQL/pandas integers, strings, booleans, or NULL/NaN. -/
inductive Val where
  | vInt : Int → Val
  | vStr : String → Val
  | vBool : Bool → Val
  | vNull : Val
deriving DecidableEq, Repr

/-- A dataframe / table row: an association list from column name to value. -/
abbrev Row := List (String × Val)

/-- Value of a column in a row, `none` when the column is absent. -/
def Row.get (r : Row) (c : String) : Option Val :=
  (r.find? (fun p => p.1 = c)).map Prod.snd

/-- Value of a column in a row, reading an absent column as NULL. -/
def cellOf (r : Row) (c : String) : Val :=
  (Row.get r c).getD Val.vNull

/-- An in-memory table: ordered column names plus rows. -/
structure DataFrame where
  cols : List String
  rows : List Row
deriving DecidableEq, Repr

/-- Rebuild a row so that it carries exactly the columns `cs`, in order,
reading absent columns as NULL.  This is both the shape of a projected
pandas row and the shape of a SQL INSERT into a table with columns `cs`. -/
def reshapeRow (cs : List String) (r : Row) : Row :=
  cs.map (fun c => (c, cellOf r c))

/-- Column selection `df[cs]`: fails (pandas `KeyError`) when a requested
column is not among the frame columns. -/
def DataFrame.project (df : DataFrame) (cs : List String) : Except String DataFrame :=
  if ∀ c ∈ cs, c ∈ df.cols then
    Except.ok { cols := cs, rows := df.rows.map (reshapeRow cs) }
  else
    Except.error "KeyError: a requested column is not in the dataframe"

/-- The values of one column, `df[c].tolist()`: fails when the column is absent. -/
def DataFrame.colVals (df : DataFrame) (c : String) : Except String (List Val) :=
  if c ∈ df.cols then
    Except.ok (df.rows.map (fun r => cellOf r c))
  else
    Except.error "KeyError: column not in the dataframe"

/-- Join-key comparison of pandas `merge`: missing cells never match, and null
keys match each other (pandas joins NaN keys to NaN keys). -/
def keyMatches (a b : Option Val) : Bool :=
  match a, b with
  | some x, some y => decide (x = y)
  | _, _ => false

/-- SQL equality used by the mart join predicates: NULL is equal to nothing. -/
def sqlEq (a b : Option Val) : Bool :=
  match a, b with
  | some (Val.vInt x), some (Val.vInt y) => decide (x = y)
  | some (Val.vStr x), some (Val.vStr y) => decide (x = y)
  | some (Val.vBool x), some (Val.vBool y) => decide (x = y)
  | _, _ => false

/-- How `merge` treats left rows without a partner. -/
inductive MergeHow where
  | inner
  | left
deriving DecidableEq, Repr

/-- Name of a left-frame column after a merge on key `k`: a non-key column
also present on the right is disambiguated with the `_x` suffix. -/
def suffixLeftCol (k : String) (rcols : List String) (c : String) : String :=
  if c ≠ k ∧ c ∈ rcols then c ++ "_x" else c

/-- Name of a right-frame non-key column after a merge: a column also present
on the left is disambiguated with the `_y` suffix. -/
def suffixRightCol (lcols : List String) (c : String) : String :=
  if c ∈ lcols then c ++ "_y" else c

/-- Columns of `left.merge(right, on = k)`: the left columns in order (with
`_x` suffixes where needed) followed by the right non-key columns (with `_y`
suffixes where needed). -/
def mergedCols (lcols rcols : List String) (k : String) : List String :=
  lcols.map (suffixLeftCol k rcols) ++
    (rcols.filter (fun c => c ≠ k)).map (suffixRightCol lcols)

/-- Output row for a matched pair of rows in a merge. -/
def mergedRowMatch (lcols rcols : List String) (k : String) (l r : Row) : Row :=
  lcols.map (fun c => (suffixLeftCol k rcols c, cellOf l c)) ++
    (rcols.filter (fun c => c ≠ k)).map (fun c => (suffixRightCol lcols c, cellOf r c))

/-- Output row for an unmatched left row in a left merge: right columns NULL. -/
def mergedRowNoMatch (lcols rcols : List String) (k : String) (l : Row) : Row :=
  lcols.map (fun c => (suffixLeftCol k rcols c, cellOf l c)) ++
    (rcols.filter (fun c => c ≠ k)).map (fun c => (suffixRightCol lcols c, Val.vNull))

/-- `left.merge(right, on = k, how = how)`.  Fails (pandas `KeyError`) when
the key is absent from either frame.  Left row order is preserved; each left
row is paired with every matching right row, and under `how = left` an
unmatched left row survives with NULL right columns. -/
def DataFrame.merge (ldf rdf : DataFrame) (k : String) (how : MergeHow) :
    Except String DataFrame :=
  if k ∈ ldf.cols ∧ k ∈ rdf.cols then
    Except.ok
      { cols := mergedCols ldf.cols rdf.cols k,
        rows := ldf.rows.flatMap (fun l =>
          let ms := rdf.rows.filter (fun r => keyMatches (Row.get l k) (Row.get r k))
          if ms.isEmpty then
            match how with
            | MergeHow.left => [mergedRowNoMatch ldf.cols rdf.cols k l]
            | MergeHow.inner => []
          else
            ms.map (mergedRowMatch ldf.cols rdf.cols k l)) }
  else
    Except.error ("merge: key " ++ k ++ " not present in both frames")

/-- Rename one entry of a row, `rename(columns = ...)` on a single row. -/
def renameRow (a b : String) (r : Row) : Row :=
  r.map (fun p => if p.1 = a then (b, p.2) else p)

/-- `df.rename(columns = ...)` for a single column: renames where present,
silently does nothing where absent. -/
def DataFrame.rename (df : DataFrame) (a b : String) : DataFrame :=
  { cols := df.cols.map (fun c => if c = a then b else c),
    rows := df.rows.map (renameRow a b) }

/-! ## The static configuration (`config.py`) -/

/-- `oltp_tables`: logical source name to physical OLTP table name. -/
def oltp_tables : List (String × String) :=
  [("users", "tb_users"),
   ("payments", "tb_payments"),
   ("shippers", "tb_shippers"),
   ("ratings", "tb_ratings"),
   ("vouchers", "tb_vouchers"),
   ("orders", "tb_orders"),
   ("products", "tb_products"),
   ("product_category", "tb_product_category"),
   ("order_items", "tb_order_items")]

/-- `warehouse_tables`: logical source name to destination table name, in the
insertion order the pipeline iterates over. -/
def warehouse_tables : List (String × String) :=
  [("users", "dim_user"),
   ("payments", "dim_payment"),
   ("shippers", "dim_shipper"),
   ("ratings", "dim_rating"),
   ("vouchers", "dim_voucher"),
   ("orders", "fact_orders"),
   ("product_category", "dim_product_category"),
   ("products", "dim_product"),
   ("order_items", "fact_order_items")]

/-- `dimension_columns`: the declared column list of each destination table. -/
def dimension_columns : List (String × List String) :=
  [("dim_user", ["user_id", "user_first_name", "user_last_name", "user_gender",
                 "user_address", "user_birthday", "user_join"]),
   ("dim_payment", ["payment_id", "payment_name", "payment_status"]),
   ("dim_shipper", ["shipper_id", "shipper_name"]),
   ("dim_rating", ["rating_id", "rating_level", "rating_status"]),
   ("dim_voucher", ["voucher_id", "voucher_name", "voucher_price",
                    "voucher_created", "user_id"]),
   ("fact_orders", ["order_id", "order_date", "user_id", "payment_id", "shipper_id",
                    "order_price", "order_discount", "voucher_id", "order_total",
                    "rating_id"]),
   ("dim_product_category", ["product_category_id", "product_category_name"]),
   ("dim_product", ["product_id", "product_category_id", "product_name",
                    "product_created", "product_price", "product_discount"]),
   ("fact_order_items", ["order_item_id", "order_id", "product_id",
                         "order_item_quantity", "product_discount",
                         "product_subdiscount", "product_price", "product_subprice"])]

/-- Columns of each warehouse table as declared by the `ddl_statements` /
`ddl_marts` CREATE TABLE text.  For `dm_sales` these are the sixteen columns
the INSERT populates (the auto-generated `sale_id SERIAL` is store-side). -/
def warehouse_ddl_columns : List (String × List String) :=
  [("dim_user", ["user_id", "user_first_name", "user_last_name", "user_gender",
                 "user_address", "user_birthday", "user_join"]),
   ("dim_payment", ["payment_id", "payment_name", "payment_status"]),
   ("dim_shipper", ["shipper_id", "shipper_name"]),
   ("dim_rating", ["rating_id", "rating_level", "rating_status"]),
   ("dim_voucher", ["voucher_id", "voucher_name", "voucher_price",
                    "voucher_created", "user_id"]),
   ("fact_orders", ["order_id", "order_date", "user_id", "payment_id", "shipper_id",
                    "order_price", "order_discount", "voucher_id", "order_total",
                    "rating_id"]),
   ("dim_product_category", ["product_category_id", "product_category_name"]),
   ("dim_product", ["product_id", "product_category_id", "product_name",
                    "product_created", "product_price", "product_discount"]),
   ("fact_order_items", ["order_item_id", "order_id", "product_id",
                         "order_item_quantity", "product_discount",
                         "product_subdiscount", "product_price", "product_subprice"]),
   ("dm_sales", ["order_id", "order_date", "user_id", "user_name", "payment_type",
                 "shipper_name", "order_price", "order_discount", "voucher_name",
                 "order_total", "order_item_id", "order_item_quantity", "product_id",
                 "product_name", "product_category_id", "product_category_name"])]

/-- The sixteen columns the `insert_dm_sales` statement populates, in its order. -/
def dm_sales_insert_columns : List String :=
  ["order_id", "order_date", "user_id", "user_name", "payment_type", "shipper_name",
   "order_price", "order_discount", "voucher_name", "order_total", "order_item_id",
   "order_item_quantity", "product_id", "product_name", "product_category_id",
   "product_category_name"]

/-! ## States -/

/-- The OLTP source store: physical table name to current contents. -/
abbrev Source := String → DataFrame

/-- The warehouse store: destination table name to current contents. -/
abbrev Warehouse := String → DataFrame

/-- A freshly created warehouse: every destination table exists with the
columns of its DDL and no rows. -/
def initWarehouse : Warehouse := fun t =>
  { cols := (List.lookup t warehouse_ddl_columns).getD [], rows := [] }

/-- `create_tables()`: issues only CREATE TABLE IF NOT EXISTS statements, so
on a warehouse whose tables exist it changes nothing. -/
def create_tables (wh : Warehouse) : Warehouse := wh

/-! ## `etl.py` -/

/-- `extract_data`, instrumented with the list of physical tables actually
read: the membership check happens before any query is issued, so an unknown
logical name produces the `ValueError` and an empty read list. -/
def extract_data_traced (src : Source) (table_name : String) :
    List String × Except String DataFrame :=
  match List.lookup table_name oltp_tables with
  | none =>
      ([], Except.error ("Table name " ++ table_name ++
        " not found in oltp_tables dictionary"))
  | some phys => ([phys], Except.ok (src phys))

/-- `extract_data(table_name)`: full unfiltered `SELECT *` of the mapped
physical table, `ValueError` for a name outside `oltp_tables`. -/
def extract_data (src : Source) (table_name : String) : Except String DataFrame :=
  (extract_data_traced src table_name).2

/-- `transform_data(df, target_table)`: projects to
`dimension_columns.get(target_table)` when that lookup yields a non-empty
list (Python truthiness) and otherwise returns the frame unchanged. -/
def transform_data (df : DataFrame) (target_table : String) : Except String DataFrame :=
  match List.lookup target_table dimension_columns with
  | some columns =>
      if columns = [] then Except.ok df else df.project columns
  | none => Except.ok df

/-- The join-and-rename prefix of `transform_fact_orders`: extract every
source table, chain the four inner merges and the left voucher merge, and
restore the `user_id` name that the voucher merge suffixed to `user_id_x`. -/
def fact_orders_joined (src : Source) : Except String DataFrame := do
  let df_users ← extract_data src "users"
  let df_payments ← extract_data src "payments"
  let df_shippers ← extract_data src "shippers"
  let df_ratings ← extract_data src "ratings"
  let df_vouchers ← extract_data src "vouchers"
  let df_orders ← extract_data src "orders"
  let _df_products ← extract_data src "products"
  let _df_product_category ← extract_data src "product_category"
  let _df_order_items ← extract_data src "order_items"
  let d1 ← df_orders.merge df_users "user_id" MergeHow.inner
  let d2 ← d1.merge df_payments "payment_id" MergeHow.inner
  let d3 ← d2.merge df_shippers "shipper_id" MergeHow.inner
  let d4 ← d3.merge df_ratings "rating_id" MergeHow.inner
  let d5 ← d4.merge df_vouchers "voucher_id" MergeHow.left
  Except.ok (d5.rename "user_id_x" "user_id")

/-- `transform_fact_orders()`: the join chain followed by projection to the
declared `fact_orders` columns. -/
def transform_fact_orders (src : Source) : Except String DataFrame := do
  let d ← fact_orders_joined src
  match List.lookup "fact_orders" dimension_columns with
  | some cs => d.project cs
  | none => Except.error "fact_orders not found in dimension_columns"

/-- The join prefix of `transform_fact_order_items`: extract every source
table and chain the two inner merges. -/
def fact_order_items_joined (src : Source) : Except String DataFrame := do
  let _df_users ← extract_data src "users"
  let _df_payments ← extract_data src "payments"
  let _df_shippers ← extract_data src "shippers"
  let _df_ratings ← extract_data src "ratings"
  let _df_vouchers ← extract_data src "vouchers"
  let df_orders ← extract_data src "orders"
  let df_products ← extract_data src "products"
  let _df_product_category ← extract_data src "product_category"
  let df_order_items ← extract_data src "order_items"
  let d1 ← df_order_items.merge df_orders "order_id" MergeHow.inner
  d1.merge df_products "product_id" MergeHow.inner

/-- `transform_fact_order_items()`: the join chain followed by projection to
the declared `fact_order_items` columns. -/
def transform_fact_order_items (src : Source) : Except String DataFrame := do
  let d ← fact_order_items_joined src
  match List.lookup "fact_order_items" dimension_columns with
  | some cs => d.project cs
  | none => Except.error "fact_order_items not found in dimension_columns"

/-- `get_unique_key(table_name)`: the string-keyed dispatch to each
destination table unique key, `ValueError` otherwise. -/
def get_unique_key (table_name : String) : Except String String :=
  if table_name = "dim_user" then Except.ok "user_id"
  else if table_name = "dim_payment" then Except.ok "payment_id"
  else if table_name = "dim_shipper" then Except.ok "shipper_id"
  else if table_name = "dim_rating" then Except.ok "rating_id"
  else if table_name = "dim_voucher" then Except.ok "voucher_id"
  else if table_name = "fact_orders" then Except.ok "order_id"
  else if table_name = "dim_product" then Except.ok "product_id"
  else if table_name = "dim_product_category" then Except.ok "product_category_id"
  else if table_name = "fact_order_items" then Except.ok "order_item_id"
  else Except.error "Table name not recognized."

/-- `deduplicate_data(new_data, existing_data, unique_key)`: drop every new
row whose key value appears in the existing key column (`~isin`). -/
def deduplicate_data (new_data existing_data : DataFrame) (unique_key : String) :
    Except String DataFrame :=
  match existing_data.colVals unique_key, new_data.colVals unique_key with
  | Except.ok existing_keys, Except.ok _ =>
      Except.ok { new_data with
        rows := new_data.rows.filter
          (fun r => ! decide (cellOf r unique_key ∈ existing_keys)) }
  | Except.error e, _ => Except.error e
  | _, Except.error e => Except.error e

/-- `df.to_sql(table, if_exists = append)`: append each row reshaped to the
table columns (absent columns become NULL); a frame column that the table
does not have is a SQL error. -/
def to_sql_append (table df : DataFrame) : Except String DataFrame :=
  if ∀ c ∈ df.cols, c ∈ table.cols then
    Except.ok { cols := table.cols,
                rows := table.rows ++ df.rows.map (reshapeRow table.cols) }
  else
    Except.error "to_sql: dataframe column not present in the destination table"

/-- `load_data(df, table_name)`: look up the unique key, read the existing
key column, deduplicate, and append the survivors. -/
def load_data (wh : Warehouse) (df : DataFrame) (table_name : String) :
    Except String Warehouse := do
  let unique_key ← get_unique_key table_name
  let existing_data ← (wh table_name).project [unique_key]
  let deduped ← deduplicate_data df existing_data unique_key
  let newTable ← to_sql_append (wh table_name) deduped
  Except.ok (Function.update wh table_name newTable)

/-- The assembled `user_first_name || ' ' || user_last_name` expression. -/
def dm_user_name (du : Row) : Val :=
  match Row.get du "user_first_name", Row.get du "user_last_name" with
  | some (Val.vStr a), some (Val.vStr b) => Val.vStr (a ++ " " ++ b)
  | _, _ => Val.vNull

/-- One SELECTed row of the `insert_dm_sales` statement. -/
def dm_sales_row (fo du dp ds dv foi dp2 dpc : Row) : Row :=
  [("order_id", cellOf fo "order_id"),
   ("order_date", cellOf fo "order_date"),
   ("user_id", cellOf fo "user_id"),
   ("user_name", dm_user_name du),
   ("payment_type", cellOf dp "payment_name"),
   ("shipper_name", cellOf ds "shipper_name"),
   ("order_price", cellOf fo "order_price"),
   ("order_discount", cellOf fo "order_discount"),
   ("voucher_name", cellOf dv "voucher_name"),
   ("order_total", cellOf fo "order_total"),
   ("order_item_id", cellOf foi "order_item_id"),
   ("order_item_quantity", cellOf foi "order_item_quantity"),
   ("product_id", cellOf dp2 "product_id"),
   ("product_name", cellOf dp2 "product_name"),
   ("product_category_id", cellOf dpc "product_category_id"),
   ("product_category_name", cellOf dpc "product_category_name")]

/-- The SELECT of `insert_dm_sales`: seven INNER JOINs (including the voucher
join) over the current warehouse state. -/
def dm_sales_query (wh : Warehouse) : List Row :=
  (wh "fact_orders").rows.flatMap fun fo =>
  ((wh "dim_user").rows.filter fun du =>
    sqlEq (Row.get fo "user_id") (Row.get du "user_id")).flatMap fun du =>
  ((wh "dim_payment").rows.filter fun dp =>
    sqlEq (Row.get fo "payment_id") (Row.get dp "payment_id")).flatMap fun dp =>
  ((wh "dim_shipper").rows.filter fun ds =>
    sqlEq (Row.get fo "shipper_id") (Row.get ds "shipper_id")).flatMap fun ds =>
  ((wh "dim_voucher").rows.filter fun dv =>
    sqlEq (Row.get fo "voucher_id") (Row.get dv "voucher_id")).flatMap fun dv =>
  ((wh "fact_order_items").rows.filter fun foi =>
    sqlEq (Row.get fo "order_id") (Row.get foi "order_id")).flatMap fun foi =>
  ((wh "dim_product").rows.filter fun dp2 =>
    sqlEq (Row.get foi "product_id") (Row.get dp2 "product_id")).flatMap fun dp2 =>
  ((wh "dim_product_category").rows.filter fun dpc =>
    sqlEq (Row.get dp2 "product_category_id") (Row.get dpc "product_category_id")).map
    fun dpc => dm_sales_row fo du dp ds dv foi dp2 dpc

/-- `create_and_insert_dm_sales()`: CREATE IF NOT EXISTS, then TRUNCATE and
repopulate from the join query — the prior `dm_sales` contents are discarded
unconditionally. -/
def create_and_insert_dm_sales (wh : Warehouse) : Warehouse :=
  Function.update wh "dm_sales"
    { cols := dm_sales_insert_columns, rows := dm_sales_query wh }

/-- Which transform the `etl_process` loop body selects for one
`warehouse_tables` item, as a function of the loop variable `dim_table`
(the dictionary key) exactly as the code compares it. -/
inductive TransformChoice where
  | factOrders
  | factOrderItems
  | projection
deriving DecidableEq, Repr

/-- The branch condition of the `etl_process` loop body. -/
def transform_choice (dim_table : String) : TransformChoice :=
  if dim_table = "fact_orders" then TransformChoice.factOrders
  else if dim_table = "fact_order_items" then TransformChoice.factOrderItems
  else TransformChoice.projection

/-- The dataframe the loop body computes for one `warehouse_tables` item,
before handing it to `load_data`. -/
def candidate (src : Source) (dim_table : String) : Except String DataFrame :=
  match transform_choice dim_table with
  | TransformChoice.factOrders => transform_fact_orders src
  | TransformChoice.factOrderItems => transform_fact_order_items src
  | TransformChoice.projection => do
      let df ← extract_data src dim_table
      transform_data df dim_table

/-- One iteration of the `etl_process` loop, threading the warehouse state
and the sequence of `Load Data ... Success` messages. -/
def process_table (src : Source) (st : Warehouse × List String)
    (p : String × String) : Except String (Warehouse × List String) := do
  let df ← candidate src p.1
  let wh2 ← load_data st.1 df p.2
  Except.ok (wh2, st.2 ++ [p.2])

/-- `etl_process()`: create tables, loop over `warehouse_tables` in order,
then rebuild the mart.  Returns the final warehouse together with the
ordered list of tables reported loaded (the mart last). -/
def etl_process (src : Source) (wh : Warehouse) :
    Except String (Warehouse × List String) := do
  let st ← warehouse_tables.foldlM (process_table src) (create_tables wh, [])
  Except.ok (create_and_insert_dm_sales st.1, st.2 ++ ["dm_sales"])

/-! ## Result accessors (for stating properties of a run) -/

/-- Warehouse of a successful run; an empty warehouse for a failed one. -/
def okWarehouse (r : Except String (Warehouse × List String)) : Warehouse :=
  match r with
  | Except.ok st => st.1
  | Except.error _ => fun _ => { cols := [], rows := [] }

/-- Load log of a successful run; empty for a failed one. -/
def okLog (r : Except String (Warehouse × List String)) : List String :=
  match r with
  | Except.ok st => st.2
  | Except.error _ => []

/-- Rows of one destination table after a run. -/
def runTableRows (r : Except String (Warehouse × List String)) (t : String) : List Row :=
  (okWarehouse r t).rows

/-! ## Source databases

The repository contains no DDL for the nine OLTP tables; the pipeline only
ever reads them with `SELECT *`.  The column lists below give each source
table exactly the columns the transforms and the warehouse DDL consume, which
is the schema the end-to-end scenario of the specification presupposes. -/

def src_users_cols : List String :=
  ["user_id", "user_first_name", "user_last_name", "user_gender",
   "user_address", "user_birthday", "user_join"]

def src_payments_cols : List String :=
  ["payment_id", "payment_name", "payment_status"]

def src_shippers_cols : List String :=
  ["shipper_id", "shipper_name"]

def src_ratings_cols : List String :=
  ["rating_id", "rating_level", "rating_status"]

def src_vouchers_cols : List String :=
  ["voucher_id", "voucher_name", "voucher_price", "voucher_created", "user_id"]

def src_orders_cols : List String :=
  ["order_id", "order_date", "user_id", "payment_id", "shipper_id",
   "order_price", "order_discount", "voucher_id", "order_total", "rating_id"]

def src_products_cols : List String :=
  ["product_id", "product_category_id", "product_name", "product_created",
   "product_price", "product_discount"]

def src_product_category_cols : List String :=
  ["product_category_id", "product_category_name"]

def src_order_items_cols : List String :=
  ["order_item_id", "order_id", "product_id", "order_item_quantity",
   "product_discount", "product_subdiscount", "product_price", "product_subprice"]

/-- A source database with the canonical schemas above and the given rows. -/
def mkSource (users payments shippers ratings vouchers orders products
    product_category order_items : List Row) : Source := fun t =>
  if t = "tb_users" then { cols := src_users_cols, rows := users }
  else if t = "tb_payments" then { cols := src_payments_cols, rows := payments }
  else if t = "tb_shippers" then { cols := src_shippers_cols, rows := shippers }
  else if t = "tb_ratings" then { cols := src_ratings_cols, rows := ratings }
  else if t = "tb_vouchers" then { cols := src_vouchers_cols, rows := vouchers }
  else if t = "tb_orders" then { cols := src_orders_cols, rows := orders }
  else if t = "tb_products" then { cols := src_products_cols, rows := products }
  else if t = "tb_product_category" then
    { cols := src_product_category_cols, rows := product_category }
  else if t = "tb_order_items" then
    { cols := src_order_items_cols, rows := order_items }
  else { cols := [], rows := [] }

/-! ## The end-to-end seed of the specification: one user, one payment, one
shipper, one rating, no voucher, one order (null voucher reference), one
product with its category, one order item. -/

def seed_user : Row :=
  [("user_id", Val.vInt 1), ("user_first_name", Val.vStr "Ana"),
   ("user_last_name", Val.vStr "Lee"), ("user_gender", Val.vStr "F"),
   ("user_address", Val.vStr "Main Street 1"),
   ("user_birthday", Val.vStr "1990-01-01"), ("user_join", Val.vStr "2020-01-01")]

def seed_payment : Row :=
  [("payment_id", Val.vInt 1), ("payment_name", Val.vStr "Credit Card"),
   ("payment_status", Val.vBool true)]

def seed_shipper : Row :=
  [("shipper_id", Val.vInt 1), ("shipper_name", Val.vStr "FastShip")]

def seed_rating : Row :=
  [("rating_id", Val.vInt 1), ("rating_level", Val.vInt 5),
   ("rating_status", Val.vStr "good")]

def seed_order : Row :=
  [("order_id", Val.vInt 1), ("order_date", Val.vStr "2021-06-01"),
   ("user_id", Val.vInt 1), ("payment_id", Val.vInt 1), ("shipper_id", Val.vInt 1),
   ("order_price", Val.vInt 100), ("order_discount", Val.vInt 0),
   ("voucher_id", Val.vNull), ("order_total", Val.vInt 100),
   ("rating_id", Val.vInt 1)]

def seed_category : Row :=
  [("product_category_id", Val.vInt 1),
   ("product_category_name", Val.vStr "Books")]

def seed_product : Row :=
  [("product_id", Val.vInt 1), ("product_category_id", Val.vInt 1),
   ("product_name", Val.vStr "Novel"), ("product_created", Val.vStr "2020-05-01"),
   ("product_price", Val.vInt 50), ("product_discount", Val.vInt 0)]

def seed_order_item : Row :=
  [("order_item_id", Val.vInt 1), ("order_id", Val.vInt 1),
   ("product_id", Val.vInt 1), ("order_item_quantity", Val.vInt 2),
   ("product_discount", Val.vInt 0), ("product_subdiscount", Val.vInt 0),
   ("product_price", Val.vInt 50), ("product_subprice", Val.vInt 100)]

/-- The seeded source database of the end-to-end scenario. -/
def seedSource : Source :=
  mkSource [seed_user] [seed_payment] [seed_shipper] [seed_rating] []
    [seed_order] [seed_product] [seed_category] [seed_order_item]

/-! ## General lemmas about the monadic plumbing -/

lemma except_bind_ok {α β : Type} (a : α) (f : α → Except String β) :
    (Except.ok a >>= f) = f a := rfl

lemma except_bind_error {α β : Type} (e : String) (f : α → Except String β) :
    ((Except.error e : Except String α) >>= f) = Except.error e := rfl

/-- Decompose one successful iteration of the `etl_process` loop. -/
lemma process_table_ok {src : Source} {w : Warehouse} {lg : List String}
    {p : String × String} {st2 : Warehouse × List String}
    (h : process_table src (w, lg) p = Except.ok st2) :
    ∃ df wh2, candidate src p.1 = Except.ok df ∧
      load_data w df p.2 = Except.ok wh2 ∧ st2 = (wh2, lg ++ [p.2]) := by
  unfold process_table at h
  cases hc : candidate src p.1 with
  | error e => rw [hc, except_bind_error] at h; exact absurd h (by simp)
  | ok df =>
    rw [hc, except_bind_ok] at h
    cases hl : load_data w df p.2 with
    | error e => rw [hl, except_bind_error] at h; exact absurd h (by simp)
    | ok wh2 =>
      rw [hl, except_bind_ok] at h
      exact ⟨df, wh2, rfl, hl, (Except.ok.inj h).symm⟩

/-- The log built by a successful run of the loop: the destination of every
processed pair, in order. -/
lemma foldl_process_log (src : Source) :
    ∀ (ps : List (String × String)) (w : Warehouse) (lg : List String)
      (st : Warehouse × List String),
      List.foldlM (process_table src) (w, lg) ps = Except.ok st →
      st.2 = lg ++ ps.map Prod.snd := by
  intro ps
  induction ps with
  | nil =>
      intro w lg st h
      simp only [List.foldlM_nil] at h
      cases h
      simp
  | cons p ps ih =>
      intro w lg st h
      rw [List.foldlM_cons] at h
      cases hp : process_table src (w, lg) p with
      | error e => rw [hp, except_bind_error] at h; exact absurd h (by simp)
      | ok st1 =>
          rw [hp, except_bind_ok] at h
          obtain ⟨df, wh2, _, _, rfl⟩ := process_table_ok hp
          have := ih wh2 (lg ++ [p.2]) st h
          simpa using this

/-- The fixed order in which a successful run reports its loads. -/
def pipeline_load_order : List String :=
  ["dim_user", "dim_payment", "dim_shipper", "dim_rating", "dim_voucher",
   "fact_orders", "dim_product_category", "dim_product", "fact_order_items",
   "dm_sales"]

/-- Any successful run loads the destinations in `pipeline_load_order`. -/
lemma etl_log_eq {src : Source} {wh : Warehouse} {st : Warehouse × List String}
    (h : etl_process src wh = Except.ok st) : st.2 = pipeline_load_order := by
  unfold etl_process at h
  cases hf : List.foldlM (process_table src) (create_tables wh, [])
      warehouse_tables with
  | error e => rw [hf, except_bind_error] at h; exact absurd h (by simp)
  | ok st9 =>
      rw [hf, except_bind_ok] at h
      have hlog := foldl_process_log src warehouse_tables (create_tables wh) [] st9 hf
      cases h
      simp only [hlog]
      rfl

set_option maxRecDepth 10000

/-! ## Claim C1 -/

/-- C1: the claim says the orchestrator selects fact assembly exactly when the
destination table being processed is `fact_orders` or `fact_order_items`.  The
code instead compares the loop key `dim_table` — a logical source name — with
the destination names, so the comparison is false on every entry of
`warehouse_tables` and the loop body selects the projection path for every
table, including the two entries whose destinations are the fact tables. -/
theorem C1_fact_branch_never_taken :
    warehouse_tables.all
      (fun p => decide (transform_choice p.1 = TransformChoice.projection)) = true ∧
    warehouse_tables.contains ("orders", "fact_orders") = true ∧
    warehouse_tables.contains ("order_items", "fact_order_items") = true ∧
    transform_choice "orders" = TransformChoice.projection ∧
    transform_choice "order_items" = TransformChoice.projection := by
  decide

/-! ## Claim C2 -/

/-- C2 counterexample: on the seeded source of the end-to-end scenario the
pipeline succeeds but leaves `dm_sales` empty, not with one row — the
`insert_dm_sales` statement INNER JOINs `dim_voucher`, so the null-voucher
order joins no voucher row. -/
theorem C2_counterexample :
    (etl_process seedSource initWarehouse).isOk = true ∧
    ¬ (runTableRows (etl_process seedSource initWarehouse) "dm_sales").length = 1 := by
  decide

/-- C2 (amended): on the seeded source, one run leaves `fact_orders` with
exactly one row whose `voucher_id` is null and `fact_order_items` with exactly
one row, but `dm_sales` with zero rows. -/
theorem C2_seeded_run_results :
    (runTableRows (etl_process seedSource initWarehouse) "fact_orders").length = 1 ∧
    (runTableRows (etl_process seedSource initWarehouse) "fact_orders").all
      (fun r => Row.get r "voucher_id" == some Val.vNull) = true ∧
    (runTableRows (etl_process seedSource initWarehouse) "fact_order_items").length = 1 ∧
    (runTableRows (etl_process seedSource initWarehouse) "dm_sales").length = 0 := by
  decide

/-! ## Claim C4 -/

/-- C4: for a logical name outside `oltp_tables`, `extract_data` raises the
descriptive unknown-table error and issues no read; for a name inside it, it
reads exactly the mapped physical table and returns its full contents. -/
theorem C4_extract_contract (src : Source) :
    (∀ name, List.lookup name oltp_tables = none →
      extract_data_traced src name =
        ([], Except.error ("Table name " ++ name ++
          " not found in oltp_tables dictionary"))) ∧
    (∀ name phys, List.lookup name oltp_tables = some phys →
      extract_data_traced src name = ([phys], Except.ok (src phys))) := by
  constructor
  · intro name h
    simp [extract_data_traced, h]
  · intro name phys h
    simp [extract_data_traced, h]

/-- C4 witness: the contract at a concrete unknown name and a concrete known
name over the seeded source. -/
theorem C4_extract_contract_witness :
    extract_data_traced seedSource "no_such_table" =
      ([], Except.error ("Table name " ++ "no_such_table" ++
        " not found in oltp_tables dictionary")) ∧
    extract_data_traced seedSource "users" =
      (["tb_users"], Except.ok (seedSource "tb_users")) :=
  ⟨(C4_extract_contract seedSource).1 "no_such_table" rfl,
   (C4_extract_contract seedSource).2 "users" "tb_users" rfl⟩

/-! ## Claim C9 -/

/-- C9 counterexample: a successful run in which `fact_orders` is loaded
before the dimension tables `dim_product_category` and `dim_product` — the
claim that every dimension table is loaded before any fact table is false. -/
theorem C9_counterexample :
    (etl_process seedSource initWarehouse).isOk = true ∧
    (okLog (etl_process seedSource initWarehouse)).indexOf "fact_orders" <
      (okLog (etl_process seedSource initWarehouse)).indexOf "dim_product_category" ∧
    (okLog (etl_process seedSource initWarehouse)).indexOf "fact_orders" <
      (okLog (etl_process seedSource initWarehouse)).indexOf "dim_product" ∧
    "fact_orders" ∈ okLog (etl_process seedSource initWarehouse) ∧
    "dim_product_category" ∈ okLog (etl_process seedSource initWarehouse) := by
  decide

/-- C9 (amended): every successful run performs its loads in the fixed
`warehouse_tables` order — five dimension tables, then `fact_orders`, then
`dim_product_category` and `dim_product`, then `fact_order_items` — and the
mart is built last. -/
theorem C9_load_order (src : Source) (wh : Warehouse)
    (h : (etl_process src wh).isOk = true) :
    okLog (etl_process src wh) = pipeline_load_order := by
  cases he : etl_process src wh with
  | error e => rw [he] at h; cases h
  | ok st => simpa [okLog] using etl_log_eq he

/-- C9 witness: the amended load order at the seeded run. -/
theorem C9_load_order_witness :
    okLog (etl_process seedSource initWarehouse) = pipeline_load_order :=
  C9_load_order seedSource initWarehouse (by decide)

/-! ## Claim C10 -/

/-- C10: for a target table name that is no key of `dimension_columns` —
such as the logical source names used by the orchestrator loop —
`transform_data` applies no projection, raises no error, and returns its
input unchanged. -/
theorem C10_transform_passthrough (df : DataFrame) (t : String)
    (h : List.lookup t dimension_columns = none) :
    transform_data df t = Except.ok df := by
  simp [transform_data, h]

/-- C10 witness: the pass-through at the seeded orders frame and the target
names `orders` and `order_items`. -/
theorem C10_transform_passthrough_witness :
    transform_data { cols := src_orders_cols, rows := [seed_order] } "orders" =
      Except.ok { cols := src_orders_cols, rows := [seed_order] } ∧
    transform_data { cols := src_order_items_cols, rows := [seed_order_item] }
        "order_items" =
      Except.ok { cols := src_order_items_cols, rows := [seed_order_item] } :=
  ⟨C10_transform_passthrough _ "orders" rfl,
   C10_transform_passthrough _ "order_items" rfl⟩

/-! ## Characterising `load_data` -/

/-- The key values currently stored in a table, as read by
`SELECT unique_key FROM table`. -/
def keyValsOf (df : DataFrame) (k : String) : List Val :=
  df.rows.map (fun r => cellOf r k)

/-- The rows `load_data` appends: the candidate rows whose key value is not
yet stored, reshaped to the destination columns. -/
def appendedRows (tbl df : DataFrame) (k : String) : List Row :=
  (df.rows.filter (fun r => ! decide (cellOf r k ∈ keyValsOf tbl k))).map
    (reshapeRow tbl.cols)

lemma reshapeRow_get (cs : List String) (r : Row) (c : String) (h : c ∈ cs) :
    Row.get (reshapeRow cs r) c = some (cellOf r c) := by
  induction cs with
  | nil => cases h
  | cons c0 cs ih =>
      by_cases hc : c0 = c
      · subst hc
        simp [reshapeRow, Row.get, List.find?_cons_of_pos]
      · have hmem : c ∈ cs := by
          rcases List.mem_cons.mp h with h1 | h1
          · exact absurd h1.symm hc
          · exact h1
        have := ih hmem
        simp only [reshapeRow, List.map_cons, Row.get] at this ⊢
        rw [List.find?_cons_of_neg]
        · exact this
        · simp [hc]

/-- `cellOf` after a reshape agrees with `cellOf` of the original row on
every kept column. -/
lemma reshapeRow_cellOf (cs : List String) (r : Row) (c : String) (h : c ∈ cs) :
    cellOf (reshapeRow cs r) c = cellOf r c := by
  simp [cellOf, reshapeRow_get cs r c h]

lemma project_ok_of {df : DataFrame} {cs : List String}
    (h : ∀ c ∈ cs, c ∈ df.cols) :
    df.project cs = Except.ok { cols := cs, rows := df.rows.map (reshapeRow cs) } := by
  unfold DataFrame.project
  rw [if_pos h]

lemma project_error_of {df : DataFrame} {cs : List String}
    (h : ¬ ∀ c ∈ cs, c ∈ df.cols) :
    df.project cs =
      Except.error "KeyError: a requested column is not in the dataframe" := by
  unfold DataFrame.project
  rw [if_neg h]

lemma project_ok_inv {df : DataFrame} {cs : List String} {out : DataFrame}
    (h : df.project cs = Except.ok out) :
    out.cols = cs ∧ out.rows = df.rows.map (reshapeRow cs) ∧ ∀ c ∈ cs, c ∈ df.cols := by
  by_cases hc : ∀ c ∈ cs, c ∈ df.cols
  · rw [project_ok_of hc] at h
    cases h
    exact ⟨rfl, rfl, hc⟩
  · rw [project_error_of hc] at h
    cases h

lemma colVals_ok_of {df : DataFrame} {c : String} (h : c ∈ df.cols) :
    df.colVals c = Except.ok (df.rows.map (fun r => cellOf r c)) := by
  simp [DataFrame.colVals, h]

/-- `deduplicate_data` on frames that both carry the key column: filter out
the new rows whose key value is among the existing key values. -/
lemma deduplicate_data_ok {new_data existing_data : DataFrame} {k : String}
    (hn : k ∈ new_data.cols) (he : k ∈ existing_data.cols) :
    deduplicate_data new_data existing_data k =
      Except.ok { new_data with
        rows := new_data.rows.filter
          (fun r => ! decide (cellOf r k ∈
            existing_data.rows.map (fun r2 => cellOf r2 k))) } := by
  unfold deduplicate_data
  rw [colVals_ok_of he, colVals_ok_of hn]

lemma to_sql_append_ok {table df : DataFrame} (h : ∀ c ∈ df.cols, c ∈ table.cols) :
    to_sql_append table df =
      Except.ok { cols := table.cols,
                  rows := table.rows ++ df.rows.map (reshapeRow table.cols) } := by
  unfold to_sql_append
  rw [if_pos h]

/-- Successful `load_data`, fully characterised: the destination table gains
exactly the candidate rows whose key value was not already stored (reshaped
to the destination columns), every other table is untouched. -/
lemma load_data_ok_char {wh : Warehouse} {df : DataFrame} {t k : String}
    (hk : get_unique_key t = Except.ok k)
    (hkt : k ∈ (wh t).cols) (hkd : k ∈ df.cols)
    (hsub : ∀ c ∈ df.cols, c ∈ (wh t).cols) :
    load_data wh df t = Except.ok (Function.update wh t
      { cols := (wh t).cols,
        rows := (wh t).rows ++ appendedRows (wh t) df k }) := by
  unfold load_data
  rw [hk, except_bind_ok]
  have hproj : ∀ c ∈ [k], c ∈ (wh t).cols := by
    intro c hc
    rcases List.mem_singleton.mp hc with rfl
    exact hkt
  rw [project_ok_of hproj, except_bind_ok]
  have hke :
      k ∈ ({ cols := [k], rows := (wh t).rows.map (reshapeRow [k]) } : DataFrame).cols := by
    simp
  rw [deduplicate_data_ok hkd hke, except_bind_ok]
  have hlist : ((wh t).rows.map (reshapeRow [k])).map (fun r2 => cellOf r2 k) =
      keyValsOf (wh t) k := by
    rw [List.map_map]
    apply List.map_congr_left
    intro r2 _
    simp only [Function.comp_apply]
    exact reshapeRow_cellOf [k] r2 k (by simp)
  simp only [hlist]
  rw [to_sql_append_ok (by intro c hc; exact hsub c hc), except_bind_ok]
  rfl

/-- A successful `load_data` certifies the key lookup, the presence of the
key column on both sides, the column containment, and the exact shape of the
resulting warehouse. -/
lemma load_data_ok_inv {wh : Warehouse} {df : DataFrame} {t : String}
    {wh2 : Warehouse} (h : load_data wh df t = Except.ok wh2) :
    ∃ k, get_unique_key t = Except.ok k ∧ k ∈ (wh t).cols ∧ k ∈ df.cols ∧
      (∀ c ∈ df.cols, c ∈ (wh t).cols) ∧
      wh2 = Function.update wh t
        { cols := (wh t).cols,
          rows := (wh t).rows ++ appendedRows (wh t) df k } := by
  cases hk : get_unique_key t with
  | error e =>
      unfold load_data at h
      rw [hk, except_bind_error] at h
      cases h
  | ok k =>
      by_cases hkt : k ∈ (wh t).cols
      · by_cases hkd : k ∈ df.cols
        · by_cases hsub : ∀ c ∈ df.cols, c ∈ (wh t).cols
          · rw [load_data_ok_char hk hkt hkd hsub] at h
            exact ⟨k, rfl, hkt, hkd, hsub, (Except.ok.inj h).symm⟩
          · exfalso
            unfold load_data at h
            rw [hk, except_bind_ok] at h
            have hproj : ∀ c ∈ [k], c ∈ (wh t).cols := by
              intro c hc
              rcases List.mem_singleton.mp hc with rfl
              exact hkt
            rw [project_ok_of hproj, except_bind_ok] at h
            have hke :
                k ∈ ({ cols := [k], rows := (wh t).rows.map (reshapeRow [k]) } : DataFrame).cols := by
              simp
            rw [deduplicate_data_ok hkd hke, except_bind_ok] at h
            unfold to_sql_append at h
            rw [if_neg hsub, except_bind_error] at h
            cases h
        · exfalso
          unfold load_data at h
          rw [hk, except_bind_ok] at h
          have hproj : ∀ c ∈ [k], c ∈ (wh t).cols := by
            intro c hc
            rcases List.mem_singleton.mp hc with rfl
            exact hkt
          rw [project_ok_of hproj, except_bind_ok] at h
          unfold deduplicate_data at h
          have hke :
              ({ cols := [k], rows := (wh t).rows.map (reshapeRow [k]) } : DataFrame).colVals k =
                Except.ok (((wh t).rows.map (reshapeRow [k])).map (fun r => cellOf r k)) :=
            colVals_ok_of (by simp)
          rw [hke] at h
          have hkd2 : df.colVals k = Except.error "KeyError: column not in the dataframe" := by
            unfold DataFrame.colVals
            rw [if_neg hkd]
          rw [hkd2] at h
          rw [except_bind_error] at h
          cases h
      · exfalso
        unfold load_data at h
        rw [hk, except_bind_ok] at h
        have hproj : ¬ ∀ c ∈ [k], c ∈ (wh t).cols := by
          intro hall
          exact hkt (hall k (by simp))
        rw [project_error_of hproj, except_bind_error] at h
        cases h

/-- When every candidate key value is already stored, `load_data` succeeds
and changes nothing: the dedup filter empties the frame and the append is a
no-op. -/
lemma load_data_covered_noop {wh : Warehouse} {df : DataFrame} {t k : String}
    (hk : get_unique_key t = Except.ok k)
    (hkt : k ∈ (wh t).cols) (hkd : k ∈ df.cols)
    (hsub : ∀ c ∈ df.cols, c ∈ (wh t).cols)
    (hcov : ∀ r ∈ df.rows, cellOf r k ∈ keyValsOf (wh t) k) :
    load_data wh df t = Except.ok wh := by
  rw [load_data_ok_char hk hkt hkd hsub]
  have happ : appendedRows (wh t) df k = [] := by
    unfold appendedRows
    rw [List.map_eq_nil_iff, List.filter_eq_nil_iff]
    intro r hr
    simp [hcov r hr]
  rw [happ]
  congr 1
  have : ({ cols := (wh t).cols, rows := (wh t).rows ++ [] } : DataFrame) = wh t := by
    rw [List.append_nil]
  rw [this]
  exact Function.update_eq_self t wh

/-! ## Claim C6 -/

/-- C6: `load_data` appends exactly the candidate rows whose unique-key value
is not already present among the destination existing key values; a candidate
whose key already exists is skipped without error even when its other columns
differ (the dedup filter looks only at the key column). -/
theorem C6_load_appends_antijoin (wh : Warehouse) (df : DataFrame) (t k : String)
    (hk : get_unique_key t = Except.ok k)
    (hkt : k ∈ (wh t).cols) (hkd : k ∈ df.cols)
    (hsub : ∀ c ∈ df.cols, c ∈ (wh t).cols) :
    ∃ wh2, load_data wh df t = Except.ok wh2 ∧
      (∀ u, u ≠ t → wh2 u = wh u) ∧
      (wh2 t).cols = (wh t).cols ∧
      (wh2 t).rows = (wh t).rows ++
        (df.rows.filter (fun r => ! decide (cellOf r k ∈ keyValsOf (wh t) k))).map
          (reshapeRow (wh t).cols) := by
  refine ⟨_, load_data_ok_char hk hkt hkd hsub, ?_, ?_, ?_⟩
  · intro u hu
    exact Function.update_noteq hu _ _
  · rw [Function.update_same]
  · rw [Function.update_same]
    rfl

/-- A destination holding one shipper row with key 1. -/
def c6_wh : Warehouse :=
  Function.update initWarehouse "dim_shipper"
    { cols := ["shipper_id", "shipper_name"],
      rows := [[("shipper_id", Val.vInt 1), ("shipper_name", Val.vStr "Old Name")]] }

/-- Candidates: key 1 with different contents (to be skipped) and key 2. -/
def c6_df : DataFrame :=
  { cols := ["shipper_id", "shipper_name"],
    rows := [[("shipper_id", Val.vInt 1), ("shipper_name", Val.vStr "Changed Name")],
             [("shipper_id", Val.vInt 2), ("shipper_name", Val.vStr "New Shipper")]] }

/-- C6 witness: the anti-join append at a concrete destination and candidate
frame in which an existing key carries changed attribute values. -/
theorem C6_load_appends_antijoin_witness :
    ∃ wh2, load_data c6_wh c6_df "dim_shipper" = Except.ok wh2 ∧
      (∀ u, u ≠ "dim_shipper" → wh2 u = c6_wh u) ∧
      (wh2 "dim_shipper").cols = (c6_wh "dim_shipper").cols ∧
      (wh2 "dim_shipper").rows = (c6_wh "dim_shipper").rows ++
        (c6_df.rows.filter (fun r =>
          ! decide (cellOf r "shipper_id" ∈ keyValsOf (c6_wh "dim_shipper") "shipper_id"))).map
          (reshapeRow (c6_wh "dim_shipper").cols) :=
  C6_load_appends_antijoin c6_wh c6_df "dim_shipper" "shipper_id" rfl
    (by decide) (by decide) (by decide)

/-! ## Re-running the pipeline (claims C7 and C8) -/

/-- All conditions for one loop iteration to succeed without appending
anything to warehouse `w`: the candidate frame is computable, its columns fit
the destination, and every candidate key value is already stored. -/
def StepCovered (src : Source) (w : Warehouse) (p : String × String) : Prop :=
  ∃ df k, candidate src p.1 = Except.ok df ∧ get_unique_key p.2 = Except.ok k ∧
    k ∈ (w p.2).cols ∧ k ∈ df.cols ∧ (∀ c ∈ df.cols, c ∈ (w p.2).cols) ∧
    ∀ r ∈ df.rows, cellOf r k ∈ keyValsOf (w p.2) k

lemma stepCovered_congr {src : Source} {w w2 : Warehouse} {p : String × String}
    (h : w p.2 = w2 p.2) (hc : StepCovered src w p) : StepCovered src w2 p := by
  obtain ⟨df, k, h1, h2, h3, h4, h5, h6⟩ := hc
  rw [h] at h3 h5 h6
  exact ⟨df, k, h1, h2, h3, h4, h5, h6⟩

/-- Tables that no remaining loop iteration targets are untouched. -/
lemma foldl_frame (src : Source) :
    ∀ (ps : List (String × String)) (w : Warehouse) (lg : List String)
      (st : Warehouse × List String),
      List.foldlM (process_table src) (w, lg) ps = Except.ok st →
      ∀ u, (∀ q ∈ ps, q.2 ≠ u) → st.1 u = w u := by
  intro ps
  induction ps with
  | nil =>
      intro w lg st h u _
      simp only [List.foldlM_nil] at h
      cases h
      rfl
  | cons p ps ih =>
      intro w lg st h u hu
      rw [List.foldlM_cons] at h
      cases hp : process_table src (w, lg) p with
      | error e => rw [hp, except_bind_error] at h; cases h
      | ok st1 =>
          rw [hp, except_bind_ok] at h
          obtain ⟨df, wh2, _, hload, rfl⟩ := process_table_ok hp
          obtain ⟨k, _, _, _, _, hupd⟩ := load_data_ok_inv hload
          have hpu : p.2 ≠ u := hu p (List.mem_cons_self p ps)
          have hstep : wh2 u = w u := by
            rw [hupd]
            exact Function.update_noteq (Ne.symm hpu) _ _
          rw [ih wh2 (lg ++ [p.2]) st h u (fun q hq => hu q (by simp [hq]))]
          exact hstep

/-- After a successful run of the loop over pairwise-distinct destinations,
every processed pair is covered in the final warehouse: its candidate key
values are all stored. -/
lemma foldl_covered (src : Source) :
    ∀ (ps : List (String × String)) (w : Warehouse) (lg : List String)
      (st : Warehouse × List String),
      List.Pairwise (fun p q : String × String => p.2 ≠ q.2) ps →
      List.foldlM (process_table src) (w, lg) ps = Except.ok st →
      ∀ p ∈ ps, StepCovered src st.1 p := by
  intro ps
  induction ps with
  | nil =>
      intro w lg st _ _ p hp
      cases hp
  | cons p ps ih =>
      intro w lg st hpw h q hq
      obtain ⟨hdistinct, hpw2⟩ := List.pairwise_cons.mp hpw
      rw [List.foldlM_cons] at h
      cases hp : process_table src (w, lg) p with
      | error e => rw [hp, except_bind_error] at h; cases h
      | ok st1 =>
          rw [hp, except_bind_ok] at h
          obtain ⟨df, wh2, hdf, hload, rfl⟩ := process_table_ok hp
          obtain ⟨k, hk, hkt, hkd, hsub, hupd⟩ := load_data_ok_inv hload
          rcases List.mem_cons.mp hq with rfl | hq2
          · -- the head pair: covered in wh2, and wh2 q.2 survives the tail
            have hw2 : wh2 q.2 = { cols := (w q.2).cols, rows := (w q.2).rows ++ appendedRows (w q.2) df k } := by
              rw [hupd, Function.update_same]
            have hcov : ∀ r ∈ df.rows, cellOf r k ∈ keyValsOf (wh2 q.2) k := by
              intro r hr
              rw [hw2]
              unfold keyValsOf
              simp only [List.map_append, List.mem_append]
              by_cases hex : cellOf r k ∈ keyValsOf (w q.2) k
              · left
                exact hex
              · right
                unfold appendedRows
                rw [List.map_map]
                refine List.mem_map.mpr ⟨r, ?_, ?_⟩
                · refine List.mem_filter.mpr ⟨hr, ?_⟩
                  simp [hex]
                · simp only [Function.comp_apply]
                  exact reshapeRow_cellOf (w q.2).cols r k hkt
            have hfinal : st.1 q.2 = wh2 q.2 :=
              foldl_frame src ps wh2 (lg ++ [q.2]) st h q.2
                (fun q2 hq2 => Ne.symm (hdistinct q2 hq2))
            refine stepCovered_congr hfinal.symm ?_
            refine ⟨df, k, hdf, hk, ?_, hkd, ?_, hcov⟩
            · rw [hw2]
              exact hkt
            · rw [hw2]
              exact hsub
          · exact ih wh2 (lg ++ [p.2]) st hpw2 h q hq2

/-- When every pair is covered, the loop succeeds and leaves the warehouse
untouched, only extending the log. -/
lemma foldl_noop (src : Source) :
    ∀ (ps : List (String × String)) (w : Warehouse) (lg : List String),
      (∀ p ∈ ps, StepCovered src w p) →
      List.foldlM (process_table src) (w, lg) ps =
        Except.ok (w, lg ++ ps.map Prod.snd) := by
  intro ps
  induction ps with
  | nil =>
      intro w lg _
      simp only [List.foldlM_nil, List.map_nil, List.append_nil]
      rfl
  | cons p ps ih =>
      intro w lg hcov
      obtain ⟨df, k, hdf, hk, hkt, hkd, hsub, hkeys⟩ := hcov p (List.mem_cons_self p ps)
      have hload : load_data w df p.2 = Except.ok w :=
        load_data_covered_noop hk hkt hkd hsub hkeys
      have hstep : process_table src (w, lg) p = Except.ok (w, lg ++ [p.2]) := by
        unfold process_table
        rw [hdf, except_bind_ok, hload, except_bind_ok]
      rw [List.foldlM_cons, hstep, except_bind_ok,
        ih w (lg ++ [p.2]) (fun q hq => hcov q (List.mem_cons_of_mem p hq))]
      simp

/-- Decompose a successful `etl_process` run into the loop result and the
mart rebuild. -/
lemma etl_process_ok_inv {src : Source} {wh : Warehouse}
    {st : Warehouse × List String} (h : etl_process src wh = Except.ok st) :
    ∃ st9, List.foldlM (process_table src) (wh, []) warehouse_tables = Except.ok st9 ∧
      st = (create_and_insert_dm_sales st9.1, st9.2 ++ ["dm_sales"]) := by
  unfold etl_process create_tables at h
  cases hf : List.foldlM (process_table src) (wh, []) warehouse_tables with
  | error e => rw [hf, except_bind_error] at h; cases h
  | ok st9 =>
      rw [hf, except_bind_ok] at h
      exact ⟨st9, rfl, (Except.ok.inj h).symm⟩

lemma update_dm_sales_apply (w : Warehouse) (d : DataFrame) (t : String)
    (h : t ≠ "dm_sales") : Function.update w "dm_sales" d t = w t :=
  Function.update_noteq h d w

/-- The mart query reads only the fact and dimension tables, never
`dm_sales` itself. -/
lemma dm_sales_query_update (w : Warehouse) (d : DataFrame) :
    dm_sales_query (Function.update w "dm_sales" d) = dm_sales_query w := by
  unfold dm_sales_query
  simp only [update_dm_sales_apply w d "fact_orders" (by decide),
    update_dm_sales_apply w d "dim_user" (by decide),
    update_dm_sales_apply w d "dim_payment" (by decide),
    update_dm_sales_apply w d "dim_shipper" (by decide),
    update_dm_sales_apply w d "dim_voucher" (by decide),
    update_dm_sales_apply w d "fact_order_items" (by decide),
    update_dm_sales_apply w d "dim_product" (by decide),
    update_dm_sales_apply w d "dim_product_category" (by decide)]

/-- The mart table a `create_and_insert_dm_sales` writes holds exactly the
query result over its input warehouse. -/
lemma create_and_insert_dm_sales_rows (w : Warehouse) :
    (create_and_insert_dm_sales w "dm_sales").rows = dm_sales_query w := by
  unfold create_and_insert_dm_sales
  rw [Function.update_same]

/-- Core re-run lemma: a second run from the warehouse a successful run
produced succeeds, leaves every non-mart table unchanged, and rebuilds the
mart to the same contents; the mart always equals one evaluation of the join
query over the final warehouse. -/
lemma etl_rerun {src : Source} {wh0 : Warehouse} {st : Warehouse × List String}
    (h : etl_process src wh0 = Except.ok st) :
    etl_process src st.1 =
      Except.ok (create_and_insert_dm_sales st.1, pipeline_load_order) ∧
    (∀ t, t ≠ "dm_sales" → create_and_insert_dm_sales st.1 t = st.1 t) ∧
    (st.1 "dm_sales").rows = dm_sales_query st.1 ∧
    (create_and_insert_dm_sales st.1 "dm_sales").rows = dm_sales_query st.1 := by
  obtain ⟨st9, hfold, rfl⟩ := etl_process_ok_inv h
  have hpw : List.Pairwise (fun p q : String × String => p.2 ≠ q.2) warehouse_tables := by
    decide
  have hcov9 : ∀ p ∈ warehouse_tables, StepCovered src st9.1 p :=
    foldl_covered src warehouse_tables wh0 [] st9 hpw hfold
  have hndm : ∀ p ∈ warehouse_tables, p.2 ≠ "dm_sales" := by decide
  have hcov1 : ∀ p ∈ warehouse_tables,
      StepCovered src (create_and_insert_dm_sales st9.1, st9.2 ++ ["dm_sales"]).1 p := by
    intro p hp
    refine stepCovered_congr ?_ (hcov9 p hp)
    exact (update_dm_sales_apply st9.1 _ p.2 (hndm p hp)).symm
  constructor
  · unfold etl_process create_tables
    rw [foldl_noop src warehouse_tables _ [] hcov1, except_bind_ok]
    rfl
  refine ⟨?_, ?_, ?_⟩
  · intro t ht
    exact update_dm_sales_apply _ _ t ht
  · show (create_and_insert_dm_sales st9.1 "dm_sales").rows =
      dm_sales_query (create_and_insert_dm_sales st9.1)
    rw [create_and_insert_dm_sales_rows st9.1]
    unfold create_and_insert_dm_sales
    exact (dm_sales_query_update st9.1 _).symm
  · show (create_and_insert_dm_sales (create_and_insert_dm_sales st9.1) "dm_sales").rows =
      dm_sales_query (create_and_insert_dm_sales st9.1)
    rw [create_and_insert_dm_sales_rows]

/-! ## Claim C7 -/

/-- C7: after a successful run, re-running the pipeline on the unchanged
source succeeds and appends no rows — every non-mart table (in particular
each of the nine destination tables) is left exactly as the first run left
it, because every candidate key is already among the stored keys and the
dedup step removes the whole candidate frame. -/
theorem C7_rerun_idempotent (src : Source) (wh0 : Warehouse)
    (h : (etl_process src wh0).isOk = true) :
    (etl_process src (okWarehouse (etl_process src wh0))).isOk = true ∧
    ∀ t, t ≠ "dm_sales" →
      okWarehouse (etl_process src (okWarehouse (etl_process src wh0))) t =
        okWarehouse (etl_process src wh0) t := by
  cases he : etl_process src wh0 with
  | error e => rw [he] at h; cases h
  | ok st =>
      obtain ⟨hrun2, hframe, _, _⟩ := etl_rerun he
      constructor
      · show (etl_process src st.1).isOk = true
        rw [hrun2]
        rfl
      · intro t ht
        show okWarehouse (etl_process src st.1) t = st.1 t
        rw [hrun2]
        exact hframe t ht

/-- C7 witness: the re-run over the seeded source. -/
theorem C7_rerun_idempotent_witness :
    (etl_process seedSource
      (okWarehouse (etl_process seedSource initWarehouse))).isOk = true ∧
    ∀ t, t ≠ "dm_sales" →
      okWarehouse (etl_process seedSource
        (okWarehouse (etl_process seedSource initWarehouse))) t =
        okWarehouse (etl_process seedSource initWarehouse) t :=
  C7_rerun_idempotent seedSource initWarehouse (by decide)

/-! ## Claim C8 -/

/-- C8: the mart rebuild is a full replace — after any successful run the
`dm_sales` contents equal one evaluation of the join query over the final
warehouse, and after a second run over the unchanged source the `dm_sales`
contents (hence its row count) are exactly those of the first run, with
nothing carried over. -/
theorem C8_mart_full_replace (src : Source) (wh0 : Warehouse)
    (h : (etl_process src wh0).isOk = true) :
    ((okWarehouse (etl_process src wh0)) "dm_sales").rows =
      dm_sales_query (okWarehouse (etl_process src wh0)) ∧
    ((okWarehouse (etl_process src (okWarehouse (etl_process src wh0)))) "dm_sales").rows =
      ((okWarehouse (etl_process src wh0)) "dm_sales").rows := by
  cases he : etl_process src wh0 with
  | error e => rw [he] at h; cases h
  | ok st =>
      obtain ⟨hrun2, _, hq1, hq2⟩ := etl_rerun he
      constructor
      · exact hq1
      · show (okWarehouse (etl_process src st.1) "dm_sales").rows =
          (st.1 "dm_sales").rows
        rw [hrun2]
        show (create_and_insert_dm_sales st.1 "dm_sales").rows = (st.1 "dm_sales").rows
        rw [hq2, hq1]

/-- C8 witness: the mart full-replace behaviour over the seeded source. -/
theorem C8_mart_full_replace_witness :
    ((okWarehouse (etl_process seedSource initWarehouse)) "dm_sales").rows =
      dm_sales_query (okWarehouse (etl_process seedSource initWarehouse)) ∧
    ((okWarehouse (etl_process seedSource
        (okWarehouse (etl_process seedSource initWarehouse)))) "dm_sales").rows =
      ((okWarehouse (etl_process seedSource initWarehouse)) "dm_sales").rows :=
  C8_mart_full_replace seedSource initWarehouse (by decide)

/-! ## Claim C5 -/

/-- Frame of a successful transform; the empty frame for a failed one. -/
def okFrame (r : Except String DataFrame) : DataFrame :=
  match r with
  | Except.ok d => d
  | Except.error _ => { cols := [], rows := [] }

lemma transform_fact_orders_ok_cols {src : Source} {out : DataFrame}
    (h : transform_fact_orders src = Except.ok out) :
    List.lookup "fact_orders" dimension_columns = some out.cols := by
  unfold transform_fact_orders at h
  cases hj : fact_orders_joined src with
  | error e => rw [hj, except_bind_error] at h; cases h
  | ok j =>
      rw [hj, except_bind_ok] at h
      have h2 : j.project ["order_id", "order_date", "user_id", "payment_id",
          "shipper_id", "order_price", "order_discount", "voucher_id",
          "order_total", "rating_id"] = Except.ok out := h
      rw [(project_ok_inv h2).1]
      rfl

lemma transform_fact_order_items_ok_cols {src : Source} {out : DataFrame}
    (h : transform_fact_order_items src = Except.ok out) :
    List.lookup "fact_order_items" dimension_columns = some out.cols := by
  unfold transform_fact_order_items at h
  cases hj : fact_order_items_joined src with
  | error e => rw [hj, except_bind_error] at h; cases h
  | ok j =>
      rw [hj, except_bind_ok] at h
      have h2 : j.project ["order_item_id", "order_id", "product_id",
          "order_item_quantity", "product_discount", "product_subdiscount",
          "product_price", "product_subprice"] = Except.ok out := h
      rw [(project_ok_inv h2).1]
      rfl

lemma transform_fact_orders_err {src : Source} {j : DataFrame}
    (hj : fact_orders_joined src = Except.ok j) {cs : List String}
    (hcs : List.lookup "fact_orders" dimension_columns = some cs)
    (hmiss : ¬ ∀ c ∈ cs, c ∈ j.cols) :
    (transform_fact_orders src).isOk = false := by
  have hcs2 : cs = ["order_id", "order_date", "user_id", "payment_id",
      "shipper_id", "order_price", "order_discount", "voucher_id",
      "order_total", "rating_id"] := by
    have : (some cs : Option (List String)) = some _ := hcs.symm.trans rfl
    exact (Option.some.inj this)
  subst hcs2
  unfold transform_fact_orders
  rw [hj, except_bind_ok]
  show (j.project _).isOk = false
  rw [project_error_of hmiss]
  rfl

lemma transform_fact_order_items_err {src : Source} {j : DataFrame}
    (hj : fact_order_items_joined src = Except.ok j) {cs : List String}
    (hcs : List.lookup "fact_order_items" dimension_columns = some cs)
    (hmiss : ¬ ∀ c ∈ cs, c ∈ j.cols) :
    (transform_fact_order_items src).isOk = false := by
  have hcs2 : cs = ["order_item_id", "order_id", "product_id",
      "order_item_quantity", "product_discount", "product_subdiscount",
      "product_price", "product_subprice"] := by
    have : (some cs : Option (List String)) = some _ := hcs.symm.trans rfl
    exact (Option.some.inj this)
  subst hcs2
  unfold transform_fact_order_items
  rw [hj, except_bind_ok]
  show (j.project _).isOk = false
  rw [project_error_of hmiss]
  rfl

/-- C5: every transform either produces a frame whose column list is exactly
the destination declared list — same names, same order — or fails when some
declared column is missing from the (extracted or joined) data. -/
theorem C5_projection_exact :
    (∀ (df : DataFrame) (t : String) (cs : List String),
      List.lookup t dimension_columns = some cs → cs ≠ [] →
      ((∀ c ∈ cs, c ∈ df.cols) →
        ∃ out, transform_data df t = Except.ok out ∧ out.cols = cs) ∧
      ((¬ ∀ c ∈ cs, c ∈ df.cols) → (transform_data df t).isOk = false)) ∧
    (∀ (src : Source) (out : DataFrame), transform_fact_orders src = Except.ok out →
      List.lookup "fact_orders" dimension_columns = some out.cols) ∧
    (∀ (src : Source) (out : DataFrame),
      transform_fact_order_items src = Except.ok out →
      List.lookup "fact_order_items" dimension_columns = some out.cols) ∧
    (∀ (src : Source) (j : DataFrame) (cs : List String),
      fact_orders_joined src = Except.ok j →
      List.lookup "fact_orders" dimension_columns = some cs →
      (¬ ∀ c ∈ cs, c ∈ j.cols) → (transform_fact_orders src).isOk = false) ∧
    (∀ (src : Source) (j : DataFrame) (cs : List String),
      fact_order_items_joined src = Except.ok j →
      List.lookup "fact_order_items" dimension_columns = some cs →
      (¬ ∀ c ∈ cs, c ∈ j.cols) → (transform_fact_order_items src).isOk = false) := by
  refine ⟨?_, ?_, ?_, ?_, ?_⟩
  · intro df t cs hcs hne
    constructor
    · intro hall
      refine ⟨{ cols := cs, rows := df.rows.map (reshapeRow cs) }, ?_, rfl⟩
      unfold transform_data
      rw [hcs]
      show (if cs = [] then Except.ok df else df.project cs) = _
      rw [if_neg hne]
      exact project_ok_of hall
    · intro hmiss
      unfold transform_data
      rw [hcs]
      show (if cs = [] then Except.ok df else df.project cs).isOk = false
      rw [if_neg hne, project_error_of hmiss]
      rfl
  · intro src out h
    exact transform_fact_orders_ok_cols h
  · intro src out h
    exact transform_fact_order_items_ok_cols h
  · intro src j cs hj hcs hmiss
    exact transform_fact_orders_err hj hcs hmiss
  · intro src j cs hj hcs hmiss
    exact transform_fact_order_items_err hj hcs hmiss

/-- A source whose orders table lacks `order_date`, so the joins succeed but
the joined frame misses a declared fact column. -/
def c5_src : Source := fun t =>
  if t = "tb_orders" then
    { cols := ["order_id", "user_id", "payment_id", "shipper_id", "rating_id",
               "voucher_id", "order_price", "order_discount", "order_total"],
      rows := [] }
  else mkSource [] [] [] [] [] [] [] [] [] t

/-- C5 witness: the exact-projection and failure behaviour at concrete
inputs — a conforming users frame, a shipper frame missing a declared
column, the seeded source for the fact transforms (where the order-items
join loses `product_discount`/`product_price` to suffixing and the transform
fails), and a source without `order_date` for the orders failure case. -/
theorem C5_projection_exact_witness :
    (∃ out, transform_data { cols := src_users_cols, rows := [seed_user] } "dim_user" =
        Except.ok out ∧
      out.cols = ["user_id", "user_first_name", "user_last_name", "user_gender",
                  "user_address", "user_birthday", "user_join"]) ∧
    (transform_data { cols := ["shipper_id"], rows := [] } "dim_shipper").isOk = false ∧
    List.lookup "fact_orders" dimension_columns =
      some (okFrame (transform_fact_orders seedSource)).cols ∧
    (transform_fact_orders c5_src).isOk = false ∧
    (transform_fact_order_items seedSource).isOk = false := by
  refine ⟨?_, ?_, ?_, ?_, ?_⟩
  · exact (C5_projection_exact.1
      { cols := src_users_cols, rows := [seed_user] } "dim_user"
      ["user_id", "user_first_name", "user_last_name", "user_gender",
       "user_address", "user_birthday", "user_join"] rfl (by decide)).1 (by decide)
  · exact (C5_projection_exact.1 { cols := ["shipper_id"], rows := [] } "dim_shipper"
      ["shipper_id", "shipper_name"] rfl (by decide)).2 (by decide)
  · exact C5_projection_exact.2.1 seedSource (okFrame (transform_fact_orders seedSource))
      (by rfl)
  · exact C5_projection_exact.2.2.2.1 c5_src (okFrame (fact_orders_joined c5_src))
      ["order_id", "order_date", "user_id", "payment_id", "shipper_id",
       "order_price", "order_discount", "voucher_id", "order_total", "rating_id"]
      (by rfl) rfl (by decide)
  · exact C5_projection_exact.2.2.2.2 seedSource
      (okFrame (fact_order_items_joined seedSource))
      ["order_item_id", "order_id", "product_id", "order_item_quantity",
       "product_discount", "product_subdiscount", "product_price", "product_subprice"]
      (by rfl) rfl (by decide)

/-! ## Merge membership lemmas (claim C3) -/

lemma merge_ok_exists {ldf rdf : DataFrame} {k : String} (how : MergeHow)
    (hl : k ∈ ldf.cols) (hr : k ∈ rdf.cols) :
    ∃ m, ldf.merge rdf k how = Except.ok m ∧
      m.cols = mergedCols ldf.cols rdf.cols k := by
  unfold DataFrame.merge
  rw [if_pos ⟨hl, hr⟩]
  exact ⟨_, rfl, rfl⟩

/-- Every row of a merge result comes from a left row, either paired with a
matching right row, or (under a left merge) alone when no right row matches. -/
lemma mem_merge_rows {ldf rdf : DataFrame} {k : String} {how : MergeHow}
    {m : DataFrame} (h : ldf.merge rdf k how = Except.ok m) {x : Row}
    (hx : x ∈ m.rows) :
    ∃ l ∈ ldf.rows,
      (∃ r ∈ rdf.rows, keyMatches (Row.get l k) (Row.get r k) = true ∧
        x = mergedRowMatch ldf.cols rdf.cols k l r) ∨
      (how = MergeHow.left ∧
        (∀ r ∈ rdf.rows, keyMatches (Row.get l k) (Row.get r k) = false) ∧
        x = mergedRowNoMatch ldf.cols rdf.cols k l) := by
  by_cases hk : k ∈ ldf.cols ∧ k ∈ rdf.cols
  · unfold DataFrame.merge at h
    rw [if_pos hk] at h
    obtain rfl := (Except.ok.inj h).symm
    have hx2 : x ∈ ldf.rows.flatMap (fun l =>
        let ms := rdf.rows.filter (fun r => keyMatches (Row.get l k) (Row.get r k))
        if ms.isEmpty then
          match how with
          | MergeHow.left => [mergedRowNoMatch ldf.cols rdf.cols k l]
          | MergeHow.inner => []
        else
          ms.map (mergedRowMatch ldf.cols rdf.cols k l)) := hx
    obtain ⟨l, hl, hxin⟩ := List.mem_flatMap.mp hx2
    refine ⟨l, hl, ?_⟩
    by_cases hempty :
        (rdf.rows.filter (fun r => keyMatches (Row.get l k) (Row.get r k))).isEmpty
    · rw [if_pos hempty] at hxin
      right
      have hnone : ∀ r ∈ rdf.rows, keyMatches (Row.get l k) (Row.get r k) = false := by
        intro r hr
        have := List.filter_eq_nil_iff.mp (List.isEmpty_iff.mp hempty) r hr
        simpa using this
      cases how with
      | inner => cases hxin
      | left =>
          rcases List.mem_singleton.mp hxin with rfl
          exact ⟨rfl, hnone, rfl⟩
    · rw [if_neg hempty] at hxin
      left
      obtain ⟨r, hr, hxr⟩ := List.mem_map.mp hxin
      have hr2 := List.mem_filter.mp hr
      exact ⟨r, hr2.1, hr2.2, hxr.symm⟩
  · exfalso
    unfold DataFrame.merge at h
    rw [if_neg hk] at h
    cases h

/-- A left row paired with a matching right row appears in the merge. -/
lemma merge_mem_match {ldf rdf : DataFrame} {k : String} {how : MergeHow}
    {m : DataFrame} (h : ldf.merge rdf k how = Except.ok m) {l r : Row}
    (hl : l ∈ ldf.rows) (hr : r ∈ rdf.rows)
    (hkm : keyMatches (Row.get l k) (Row.get r k) = true) :
    mergedRowMatch ldf.cols rdf.cols k l r ∈ m.rows := by
  by_cases hk : k ∈ ldf.cols ∧ k ∈ rdf.cols
  · unfold DataFrame.merge at h
    rw [if_pos hk] at h
    obtain rfl := (Except.ok.inj h).symm
    show _ ∈ ldf.rows.flatMap _
    refine List.mem_flatMap.mpr ⟨l, hl, ?_⟩
    have hmem : r ∈ rdf.rows.filter (fun r2 => keyMatches (Row.get l k) (Row.get r2 k)) :=
      List.mem_filter.mpr ⟨hr, hkm⟩
    have hne : ¬ (rdf.rows.filter
        (fun r2 => keyMatches (Row.get l k) (Row.get r2 k))).isEmpty := by
      intro hemp
      rw [List.isEmpty_iff.mp hemp] at hmem
      cases hmem
    rw [if_neg hne]
    exact List.mem_map_of_mem _ hmem
  · exfalso
    unfold DataFrame.merge at h
    rw [if_neg hk] at h
    cases h

/-- A left row with no matching right row survives a left merge alone. -/
lemma merge_mem_nomatch {ldf rdf : DataFrame} {k : String} {m : DataFrame}
    (h : ldf.merge rdf k MergeHow.left = Except.ok m) {l : Row}
    (hl : l ∈ ldf.rows)
    (hnm : ∀ r ∈ rdf.rows, keyMatches (Row.get l k) (Row.get r k) = false) :
    mergedRowNoMatch ldf.cols rdf.cols k l ∈ m.rows := by
  by_cases hk : k ∈ ldf.cols ∧ k ∈ rdf.cols
  · unfold DataFrame.merge at h
    rw [if_pos hk] at h
    obtain rfl := (Except.ok.inj h).symm
    show _ ∈ ldf.rows.flatMap _
    refine List.mem_flatMap.mpr ⟨l, hl, ?_⟩
    have hemp : (rdf.rows.filter
        (fun r2 => keyMatches (Row.get l k) (Row.get r2 k))).isEmpty := by
      rw [List.isEmpty_iff, List.filter_eq_nil_iff]
      intro r hr
      simp [hnm r hr]
    rw [if_pos hemp]
    exact List.mem_singleton.mpr rfl
  · exfalso
    unfold DataFrame.merge at h
    rw [if_neg hk] at h
    cases h

lemma keyMatches_some_left {a b : Option Val} (h : keyMatches a b = true) :
    a = some (a.getD Val.vNull) := by
  cases a with
  | none => cases b <;> simp [keyMatches] at h
  | some x => rfl

lemma cellOf_of_get {m : Row} {c : String} {w : Val} (h : Row.get m c = some w) :
    cellOf m c = w := by
  simp [cellOf, h]

/-! ## Column traces through the `transform_fact_orders` join chain -/

def jc1 : List String := mergedCols src_orders_cols src_users_cols "user_id"

def jc2 : List String := mergedCols jc1 src_payments_cols "payment_id"

def jc3 : List String := mergedCols jc2 src_shippers_cols "shipper_id"

def jc4 : List String := mergedCols jc3 src_ratings_cols "rating_id"

lemma stage1_gets (l u : Row) :
    Row.get (mergedRowMatch src_orders_cols src_users_cols "user_id" l u) "order_id" =
      some (cellOf l "order_id") ∧
    Row.get (mergedRowMatch src_orders_cols src_users_cols "user_id" l u) "payment_id" =
      some (cellOf l "payment_id") ∧
    Row.get (mergedRowMatch src_orders_cols src_users_cols "user_id" l u) "shipper_id" =
      some (cellOf l "shipper_id") ∧
    Row.get (mergedRowMatch src_orders_cols src_users_cols "user_id" l u) "rating_id" =
      some (cellOf l "rating_id") ∧
    Row.get (mergedRowMatch src_orders_cols src_users_cols "user_id" l u) "voucher_id" =
      some (cellOf l "voucher_id") ∧
    Row.get (mergedRowMatch src_orders_cols src_users_cols "user_id" l u) "user_id" =
      some (cellOf l "user_id") := by
  refine ⟨?_, ?_, ?_, ?_, ?_, ?_⟩ <;>
    simp [mergedRowMatch, suffixLeftCol, suffixRightCol, src_orders_cols,
      src_users_cols, Row.get, List.filter]

lemma stage2_gets (m p : Row) :
    Row.get (mergedRowMatch jc1 src_payments_cols "payment_id" m p) "order_id" =
      some (cellOf m "order_id") ∧
    Row.get (mergedRowMatch jc1 src_payments_cols "payment_id" m p) "shipper_id" =
      some (cellOf m "shipper_id") ∧
    Row.get (mergedRowMatch jc1 src_payments_cols "payment_id" m p) "rating_id" =
      some (cellOf m "rating_id") ∧
    Row.get (mergedRowMatch jc1 src_payments_cols "payment_id" m p) "voucher_id" =
      some (cellOf m "voucher_id") := by
  refine ⟨?_, ?_, ?_, ?_⟩ <;>
    simp [mergedRowMatch, suffixLeftCol, suffixRightCol, jc1, mergedCols,
      src_orders_cols, src_users_cols, src_payments_cols, Row.get, List.filter]

lemma stage3_gets (m s2 : Row) :
    Row.get (mergedRowMatch jc2 src_shippers_cols "shipper_id" m s2) "order_id" =
      some (cellOf m "order_id") ∧
    Row.get (mergedRowMatch jc2 src_shippers_cols "shipper_id" m s2) "rating_id" =
      some (cellOf m "rating_id") ∧
    Row.get (mergedRowMatch jc2 src_shippers_cols "shipper_id" m s2) "voucher_id" =
      some (cellOf m "voucher_id") := by
  refine ⟨?_, ?_, ?_⟩ <;>
    simp [mergedRowMatch, suffixLeftCol, suffixRightCol, jc2, jc1, mergedCols,
      src_orders_cols, src_users_cols, src_payments_cols, src_shippers_cols,
      Row.get, List.filter]

lemma stage4_gets (m rt : Row) :
    Row.get (mergedRowMatch jc3 src_ratings_cols "rating_id" m rt) "order_id" =
      some (cellOf m "order_id") ∧
    Row.get (mergedRowMatch jc3 src_ratings_cols "rating_id" m rt) "voucher_id" =
      some (cellOf m "voucher_id") := by
  refine ⟨?_, ?_⟩ <;>
    simp [mergedRowMatch, suffixLeftCol, suffixRightCol, jc3, jc2, jc1, mergedCols,
      src_orders_cols, src_users_cols, src_payments_cols, src_shippers_cols,
      src_ratings_cols, Row.get, List.filter]

lemma stage5_match_gets (m v : Row) :
    Row.get (mergedRowMatch jc4 src_vouchers_cols "voucher_id" m v) "order_id" =
      some (cellOf m "order_id") ∧
    Row.get (mergedRowMatch jc4 src_vouchers_cols "voucher_id" m v) "voucher_id" =
      some (cellOf m "voucher_id") := by
  refine ⟨?_, ?_⟩ <;>
    simp [mergedRowMatch, suffixLeftCol, suffixRightCol, jc4, jc3, jc2, jc1, mergedCols,
      src_orders_cols, src_users_cols, src_payments_cols, src_shippers_cols,
      src_ratings_cols, src_vouchers_cols, Row.get, List.filter]

lemma stage5_nomatch_gets (m : Row) :
    Row.get (mergedRowNoMatch jc4 src_vouchers_cols "voucher_id" m) "order_id" =
      some (cellOf m "order_id") ∧
    Row.get (mergedRowNoMatch jc4 src_vouchers_cols "voucher_id" m) "voucher_id" =
      some (cellOf m "voucher_id") ∧
    Row.get (mergedRowNoMatch jc4 src_vouchers_cols "voucher_id" m) "voucher_name" =
      some Val.vNull ∧
    Row.get (mergedRowNoMatch jc4 src_vouchers_cols "voucher_id" m) "voucher_price" =
      some Val.vNull ∧
    Row.get (mergedRowNoMatch jc4 src_vouchers_cols "voucher_id" m) "voucher_created" =
      some Val.vNull := by
  refine ⟨?_, ?_, ?_, ?_, ?_⟩ <;>
    simp [mergedRowNoMatch, suffixLeftCol, suffixRightCol, jc4, jc3, jc2, jc1, mergedCols,
      src_orders_cols, src_users_cols, src_payments_cols, src_shippers_cols,
      src_ratings_cols, src_vouchers_cols, Row.get, List.filter]

lemma renameRow_get_of_ne (a b : String) (r : Row) (c : String)
    (hca : c ≠ a) (hcb : c ≠ b) :
    Row.get (renameRow a b r) c = Row.get r c := by
  induction r with
  | nil => rfl
  | cons p r ih =>
      unfold renameRow Row.get at *
      simp only [List.map_cons]
      by_cases hp : p.1 = a
      · rw [if_pos hp]
        rw [List.find?_cons_of_neg _ (by simp [Ne.symm hcb])]
        rw [List.find?_cons_of_neg _ (by simp [hp, Ne.symm hca])]
        exact ih
      · rw [if_neg hp]
        by_cases hpc : p.1 = c
        · rw [List.find?_cons_of_pos _ (by simp [hpc]),
            List.find?_cons_of_pos _ (by simp [hpc])]
        · rw [List.find?_cons_of_neg _ (by simp [hpc]),
            List.find?_cons_of_neg _ (by simp [hpc])]
          exact ih

/-- `fact_orders_joined` over a canonical-schema source, with the extraction
steps reduced: the five-merge chain followed by the rename. -/
lemma fact_orders_joined_mkSource_eq (users payments shippers ratings vouchers
    orders products cats items : List Row) :
    fact_orders_joined (mkSource users payments shippers ratings vouchers orders
      products cats items) = (do
      let d1 ← DataFrame.merge { cols := src_orders_cols, rows := orders }
        { cols := src_users_cols, rows := users } "user_id" MergeHow.inner
      let d2 ← d1.merge { cols := src_payments_cols, rows := payments } "payment_id"
        MergeHow.inner
      let d3 ← d2.merge { cols := src_shippers_cols, rows := shippers } "shipper_id"
        MergeHow.inner
      let d4 ← d3.merge { cols := src_ratings_cols, rows := ratings } "rating_id"
        MergeHow.inner
      let d5 ← d4.merge { cols := src_vouchers_cols, rows := vouchers } "voucher_id"
        MergeHow.left
      Except.ok (d5.rename "user_id_x" "user_id")) := rfl

/-- The whole join chain of `transform_fact_orders` over a canonical-schema
source: each merge succeeds, the intermediate column lists are the `jc`
traces, and the joined frame is the rename of the last merge. -/
lemma fact_orders_joined_frames (users payments shippers ratings vouchers orders
    products cats items : List Row) :
    ∃ D1 D2 D3 D4 D5 : DataFrame,
      DataFrame.merge { cols := src_orders_cols, rows := orders }
        { cols := src_users_cols, rows := users } "user_id" MergeHow.inner =
        Except.ok D1 ∧
      D1.merge { cols := src_payments_cols, rows := payments } "payment_id"
        MergeHow.inner = Except.ok D2 ∧
      D2.merge { cols := src_shippers_cols, rows := shippers } "shipper_id"
        MergeHow.inner = Except.ok D3 ∧
      D3.merge { cols := src_ratings_cols, rows := ratings } "rating_id"
        MergeHow.inner = Except.ok D4 ∧
      D4.merge { cols := src_vouchers_cols, rows := vouchers } "voucher_id"
        MergeHow.left = Except.ok D5 ∧
      D1.cols = jc1 ∧ D2.cols = jc2 ∧ D3.cols = jc3 ∧ D4.cols = jc4 ∧
      D5.cols = mergedCols jc4 src_vouchers_cols "voucher_id" ∧
      fact_orders_joined (mkSource users payments shippers ratings vouchers orders
        products cats items) = Except.ok (D5.rename "user_id_x" "user_id") := by
  obtain ⟨D1, hm1, hc1⟩ := @merge_ok_exists
    { cols := src_orders_cols, rows := orders }
    { cols := src_users_cols, rows := users } "user_id" MergeHow.inner
    (show "user_id" ∈ src_orders_cols by decide)
    (show "user_id" ∈ src_users_cols by decide)
  have hc1j : D1.cols = jc1 := hc1
  obtain ⟨D2, hm2, hc2⟩ := @merge_ok_exists D1
    { cols := src_payments_cols, rows := payments } "payment_id" MergeHow.inner
    (by rw [hc1j]; decide) (show "payment_id" ∈ src_payments_cols by decide)
  have hc2j : D2.cols = jc2 := by rw [hc2, hc1j]; rfl
  obtain ⟨D3, hm3, hc3⟩ := @merge_ok_exists D2
    { cols := src_shippers_cols, rows := shippers } "shipper_id" MergeHow.inner
    (by rw [hc2j]; decide) (show "shipper_id" ∈ src_shippers_cols by decide)
  have hc3j : D3.cols = jc3 := by rw [hc3, hc2j]; rfl
  obtain ⟨D4, hm4, hc4⟩ := @merge_ok_exists D3
    { cols := src_ratings_cols, rows := ratings } "rating_id" MergeHow.inner
    (by rw [hc3j]; decide) (show "rating_id" ∈ src_ratings_cols by decide)
  have hc4j : D4.cols = jc4 := by rw [hc4, hc3j]; rfl
  obtain ⟨D5, hm5, hc5⟩ := @merge_ok_exists D4
    { cols := src_vouchers_cols, rows := vouchers } "voucher_id" MergeHow.left
    (by rw [hc4j]; decide) (show "voucher_id" ∈ src_vouchers_cols by decide)
  have hc5j : D5.cols = mergedCols jc4 src_vouchers_cols "voucher_id" := by
    rw [hc5, hc4j]
  refine ⟨D1, D2, D3, D4, D5, hm1, hm2, hm3, hm4, hm5,
    hc1j, hc2j, hc3j, hc4j, hc5j, ?_⟩
  rw [fact_orders_joined_mkSource_eq, hm1, except_bind_ok, hm2, except_bind_ok,
    hm3, except_bind_ok, hm4, except_bind_ok, hm5, except_bind_ok]

/-- An inner merge only produces matched rows. -/
lemma mem_merge_rows_inner {ldf rdf : DataFrame} {k : String} {m : DataFrame}
    (h : ldf.merge rdf k MergeHow.inner = Except.ok m) {x : Row} (hx : x ∈ m.rows) :
    ∃ l ∈ ldf.rows, ∃ r ∈ rdf.rows, keyMatches (Row.get l k) (Row.get r k) = true ∧
      x = mergedRowMatch ldf.cols rdf.cols k l r := by
  obtain ⟨l, hl, hc⟩ := mem_merge_rows h hx
  rcases hc with ⟨r, hr, hkm, hxeq⟩ | ⟨hhow, _, _⟩
  · exact ⟨l, hl, r, hr, hkm, hxeq⟩
  · exact MergeHow.noConfusion hhow

/-- Backward trace through the `transform_fact_orders` join chain: every row
of the joined frame originates from one orders row whose `user_id`,
`payment_id`, `shipper_id` and `rating_id` all found partners; the row
carries that orders row key. -/
lemma fact_orders_joined_origin {users payments shippers ratings vouchers orders
    products cats items : List Row} {j : DataFrame}
    (hj : fact_orders_joined (mkSource users payments shippers ratings vouchers
      orders products cats items) = Except.ok j) :
    ∀ x ∈ j.rows, ∃ l, l ∈ orders ∧
      Row.get x "order_id" = some (cellOf l "order_id") ∧
      (∃ u ∈ users, keyMatches (some (cellOf l "user_id")) (Row.get u "user_id") = true) ∧
      (∃ p ∈ payments,
        keyMatches (some (cellOf l "payment_id")) (Row.get p "payment_id") = true) ∧
      (∃ s2 ∈ shippers,
        keyMatches (some (cellOf l "shipper_id")) (Row.get s2 "shipper_id") = true) ∧
      (∃ rt ∈ ratings,
        keyMatches (some (cellOf l "rating_id")) (Row.get rt "rating_id") = true) := by
  obtain ⟨D1, D2, D3, D4, D5, hm1, hm2, hm3, hm4, hm5,
    hc1, hc2, hc3, hc4, hc5, hjoin⟩ :=
    fact_orders_joined_frames users payments shippers ratings vouchers orders
      products cats items
  rw [hjoin] at hj
  obtain rfl := (Except.ok.inj hj).symm
  intro x hx
  have hx2 : x ∈ D5.rows.map (renameRow "user_id_x" "user_id") := hx
  obtain ⟨m5, hmem5, rfl⟩ := List.mem_map.mp hx2
  obtain ⟨m4, hmem4, hcase5⟩ := mem_merge_rows hm5 hmem5
  simp only [hc4] at hcase5
  obtain ⟨m3, hmem3, rt, hrtmem, hkm4, rfl⟩ := mem_merge_rows_inner hm4 hmem4
  obtain ⟨m2, hmem2, s2, hsmem, hkm3, rfl⟩ := mem_merge_rows_inner hm3 hmem3
  obtain ⟨m1, hmem1, p, hpmem, hkm2, rfl⟩ := mem_merge_rows_inner hm2 hmem2
  obtain ⟨l, hmeml, u, humem, hkm1, rfl⟩ := mem_merge_rows_inner hm1 hmem1
  dsimp only at hkm1 hkm2 hkm3 hkm4 hcase5
  simp only [hc1] at hkm2 hkm3 hkm4 hcase5
  simp only [hc2] at hkm3 hkm4 hcase5
  simp only [hc3] at hkm4 hcase5
  -- per-stage value traces
  obtain ⟨g1o, g1p, g1s, g1r, g1v, g1u⟩ := stage1_gets l u
  obtain ⟨g2o, g2s, g2r, g2v⟩ := stage2_gets
    (mergedRowMatch src_orders_cols src_users_cols "user_id" l u) p
  obtain ⟨g3o, g3r, g3v⟩ := stage3_gets
    (mergedRowMatch jc1 src_payments_cols "payment_id"
      (mergedRowMatch src_orders_cols src_users_cols "user_id" l u) p) s2
  obtain ⟨g4o, g4v⟩ := stage4_gets
    (mergedRowMatch jc2 src_shippers_cols "shipper_id"
      (mergedRowMatch jc1 src_payments_cols "payment_id"
        (mergedRowMatch src_orders_cols src_users_cols "user_id" l u) p) s2) rt
  refine ⟨l, hmeml, ?_, ?_, ?_, ?_, ?_⟩
  · -- the order key survives to the joined row
    have hmo : ∀ y, Row.get y "order_id" = some (cellOf l "order_id") →
        Row.get (renameRow "user_id_x" "user_id" y) "order_id" =
          some (cellOf l "order_id") := by
      intro y hy
      rw [renameRow_get_of_ne _ _ _ _ (by decide) (by decide)]
      exact hy
    have h4 : cellOf (mergedRowMatch jc3 src_ratings_cols "rating_id"
        (mergedRowMatch jc2 src_shippers_cols "shipper_id"
          (mergedRowMatch jc1 src_payments_cols "payment_id"
            (mergedRowMatch src_orders_cols src_users_cols "user_id" l u) p) s2) rt)
        "order_id" = cellOf l "order_id" := by
      rw [cellOf_of_get g4o, cellOf_of_get g3o, cellOf_of_get g2o, cellOf_of_get g1o]
    rcases hcase5 with ⟨v, hvmem, hkm5, rfl⟩ | ⟨_, hnov, rfl⟩
    · apply hmo
      rw [(stage5_match_gets _ v).1, h4]
    · apply hmo
      rw [(stage5_nomatch_gets _).1, h4]
  · -- user match in key-value form
    refine ⟨u, humem, ?_⟩
    rw [keyMatches_some_left hkm1] at hkm1
    exact hkm1
  · -- payment match
    refine ⟨p, hpmem, ?_⟩
    rw [g1p] at hkm2
    exact hkm2
  · -- shipper match
    refine ⟨s2, hsmem, ?_⟩
    rw [g2s, cellOf_of_get g1s] at hkm3
    exact hkm3
  · -- rating match
    refine ⟨rt, hrtmem, ?_⟩
    rw [g3r, cellOf_of_get g2r, cellOf_of_get g1r] at hkm4
    exact hkm4

/-- Forward construction through the `transform_fact_orders` join chain: an
orders row with partners for its four inner-join keys and no voucher partner
survives the left voucher merge, carrying its own key and voucher reference
and NULL voucher attributes. -/
lemma fact_orders_joined_preserves {users payments shippers ratings vouchers
    orders products cats items : List Row} {o : Row} (ho : o ∈ orders)
    (hu : ∃ u ∈ users, keyMatches (Row.get o "user_id") (Row.get u "user_id") = true)
    (hp : ∃ p ∈ payments,
      keyMatches (Row.get o "payment_id") (Row.get p "payment_id") = true)
    (hs : ∃ s2 ∈ shippers,
      keyMatches (Row.get o "shipper_id") (Row.get s2 "shipper_id") = true)
    (hrt : ∃ rt ∈ ratings,
      keyMatches (Row.get o "rating_id") (Row.get rt "rating_id") = true)
    (hv : ∀ v ∈ vouchers,
      keyMatches (some (cellOf o "voucher_id")) (Row.get v "voucher_id") = false) :
    ∃ j, fact_orders_joined (mkSource users payments shippers ratings vouchers
      orders products cats items) = Except.ok j ∧
      ∃ m ∈ j.rows,
        Row.get m "order_id" = some (cellOf o "order_id") ∧
        Row.get m "voucher_id" = some (cellOf o "voucher_id") ∧
        Row.get m "voucher_name" = some Val.vNull ∧
        Row.get m "voucher_price" = some Val.vNull ∧
        Row.get m "voucher_created" = some Val.vNull := by
  obtain ⟨D1, D2, D3, D4, D5, hm1, hm2, hm3, hm4, hm5,
    hc1, hc2, hc3, hc4, hc5, hjoin⟩ :=
    fact_orders_joined_frames users payments shippers ratings vouchers orders
      products cats items
  obtain ⟨u, humem, hkmu⟩ := hu
  obtain ⟨p, hpmem, hkmp⟩ := hp
  obtain ⟨s2, hsmem, hkms⟩ := hs
  obtain ⟨rt, hrtmem, hkmr⟩ := hrt
  obtain ⟨g1o, g1p, g1s, g1r, g1v, g1u⟩ := stage1_gets o u
  -- stage 1
  have hmem1 : mergedRowMatch src_orders_cols src_users_cols "user_id" o u ∈ D1.rows := by
    have := merge_mem_match hm1 (l := o) (r := u) ho humem hkmu
    exact this
  -- stage 2
  have hkm2 : keyMatches
      (Row.get (mergedRowMatch src_orders_cols src_users_cols "user_id" o u)
        "payment_id") (Row.get p "payment_id") = true := by
    rw [g1p]
    rw [keyMatches_some_left hkmp] at hkmp
    exact hkmp
  have hmem2 := merge_mem_match hm2 hmem1 hpmem hkm2
  rw [hc1] at hmem2
  obtain ⟨g2o, g2s, g2r, g2v⟩ := stage2_gets
    (mergedRowMatch src_orders_cols src_users_cols "user_id" o u) p
  -- stage 3
  have hkm3 : keyMatches
      (Row.get (mergedRowMatch jc1 src_payments_cols "payment_id"
        (mergedRowMatch src_orders_cols src_users_cols "user_id" o u) p)
        "shipper_id") (Row.get s2 "shipper_id") = true := by
    rw [g2s, cellOf_of_get g1s]
    rw [keyMatches_some_left hkms] at hkms
    exact hkms
  have hmem3 := merge_mem_match hm3 hmem2 hsmem hkm3
  rw [hc2] at hmem3
  obtain ⟨g3o, g3r, g3v⟩ := stage3_gets
    (mergedRowMatch jc1 src_payments_cols "payment_id"
      (mergedRowMatch src_orders_cols src_users_cols "user_id" o u) p) s2
  -- stage 4
  have hkm4 : keyMatches
      (Row.get (mergedRowMatch jc2 src_shippers_cols "shipper_id"
        (mergedRowMatch jc1 src_payments_cols "payment_id"
          (mergedRowMatch src_orders_cols src_users_cols "user_id" o u) p) s2)
        "rating_id") (Row.get rt "rating_id") = true := by
    rw [g3r, cellOf_of_get g2r, cellOf_of_get g1r]
    rw [keyMatches_some_left hkmr] at hkmr
    exact hkmr
  have hmem4 := merge_mem_match hm4 hmem3 hrtmem hkm4
  rw [hc3] at hmem4
  obtain ⟨g4o, g4v⟩ := stage4_gets
    (mergedRowMatch jc2 src_shippers_cols "shipper_id"
      (mergedRowMatch jc1 src_payments_cols "payment_id"
        (mergedRowMatch src_orders_cols src_users_cols "user_id" o u) p) s2) rt
  -- stage 5: no voucher partner, the row survives the left merge alone
  have hv4 : cellOf (mergedRowMatch jc3 src_ratings_cols "rating_id"
      (mergedRowMatch jc2 src_shippers_cols "shipper_id"
        (mergedRowMatch jc1 src_payments_cols "payment_id"
          (mergedRowMatch src_orders_cols src_users_cols "user_id" o u) p) s2) rt)
      "voucher_id" = cellOf o "voucher_id" := by
    rw [cellOf_of_get g4v, cellOf_of_get g3v, cellOf_of_get g2v, cellOf_of_get g1v]
  have hnm5 : ∀ v ∈ vouchers, keyMatches
      (Row.get (mergedRowMatch jc3 src_ratings_cols "rating_id"
        (mergedRowMatch jc2 src_shippers_cols "shipper_id"
          (mergedRowMatch jc1 src_payments_cols "payment_id"
            (mergedRowMatch src_orders_cols src_users_cols "user_id" o u) p) s2) rt)
        "voucher_id") (Row.get v "voucher_id") = false := by
    intro v hvmem
    rw [g4v, cellOf_of_get g3v, cellOf_of_get g2v, cellOf_of_get g1v]
    exact hv v hvmem
  have hmem5 := merge_mem_nomatch hm5 hmem4 hnm5
  rw [hc4] at hmem5
  obtain ⟨g5o, g5v, g5n, g5p, g5c⟩ := stage5_nomatch_gets
    (mergedRowMatch jc3 src_ratings_cols "rating_id"
      (mergedRowMatch jc2 src_shippers_cols "shipper_id"
        (mergedRowMatch jc1 src_payments_cols "payment_id"
          (mergedRowMatch src_orders_cols src_users_cols "user_id" o u) p) s2) rt)
  refine ⟨_, hjoin, ?_⟩
  refine ⟨renameRow "user_id_x" "user_id"
    (mergedRowNoMatch jc4 src_vouchers_cols "voucher_id"
      (mergedRowMatch jc3 src_ratings_cols "rating_id"
        (mergedRowMatch jc2 src_shippers_cols "shipper_id"
          (mergedRowMatch jc1 src_payments_cols "payment_id"
            (mergedRowMatch src_orders_cols src_users_cols "user_id" o u) p) s2) rt)),
    ?_, ?_, ?_, ?_, ?_, ?_⟩
  · exact List.mem_map_of_mem _ hmem5
  · rw [renameRow_get_of_ne _ _ _ _ (by decide) (by decide), g5o,
      cellOf_of_get g4o, cellOf_of_get g3o, cellOf_of_get g2o, cellOf_of_get g1o]
  · rw [renameRow_get_of_ne _ _ _ _ (by decide) (by decide), g5v, hv4]
  · rw [renameRow_get_of_ne _ _ _ _ (by decide) (by decide), g5n]
  · rw [renameRow_get_of_ne _ _ _ _ (by decide) (by decide), g5p]
  · rw [renameRow_get_of_ne _ _ _ _ (by decide) (by decide), g5c]

/-- `transform_fact_orders` is the join chain followed by the projection to
the declared `fact_orders` columns. -/
lemma transform_fact_orders_eq (src : Source) :
    transform_fact_orders src = (do
      let d ← fact_orders_joined src
      d.project ["order_id", "order_date", "user_id", "payment_id", "shipper_id",
        "order_price", "order_discount", "voucher_id", "order_total",
        "rating_id"]) := rfl

lemma transform_fact_orders_rows {src : Source} {out : DataFrame}
    (h : transform_fact_orders src = Except.ok out) :
    ∃ j, fact_orders_joined src = Except.ok j ∧
      out.rows = j.rows.map (reshapeRow ["order_id", "order_date", "user_id",
        "payment_id", "shipper_id", "order_price", "order_discount", "voucher_id",
        "order_total", "rating_id"]) := by
  rw [transform_fact_orders_eq] at h
  cases hj : fact_orders_joined src with
  | error e => rw [hj, except_bind_error] at h; cases h
  | ok j =>
      rw [hj, except_bind_ok] at h
      exact ⟨j, rfl, (project_ok_inv h).2.1⟩

def jc5 : List String := mergedCols jc4 src_vouchers_cols "voucher_id"

def jc5r : List String := jc5.map (fun c => if c = "user_id_x" then "user_id" else c)

lemma fact_orders_joined_cols {users payments shippers ratings vouchers orders
    products cats items : List Row} {j : DataFrame}
    (hj : fact_orders_joined (mkSource users payments shippers ratings vouchers
      orders products cats items) = Except.ok j) :
    j.cols = jc5r := by
  obtain ⟨D1, D2, D3, D4, D5, _, _, _, _, _, _, _, _, _, hc5, hjoin2⟩ :=
    fact_orders_joined_frames users payments shippers ratings vouchers orders
      products cats items
  rw [hjoin2] at hj
  obtain rfl := (Except.ok.inj hj).symm
  show D5.cols.map _ = jc5r
  rw [hc5]
  rfl

/-- C3: in `transform_fact_orders` over a canonical-schema source, an orders
row whose `user_id`, `payment_id`, `shipper_id` or `rating_id` finds no
partner in the corresponding extracted table is dropped — no output row
carries its order key (assuming that key identifies it uniquely among the
orders rows) — while an orders row whose four inner-join keys all find
partners and whose `voucher_id` (null included) matches no voucher still
appears: it survives the left voucher merge with NULL voucher attributes and
reaches the projected output with its own `order_id` and `voucher_id`. -/
theorem C3_fact_orders_join_semantics (users payments shippers ratings vouchers
    orders products cats items : List Row) :
    (∀ o ∈ orders,
      ((∀ u ∈ users,
          keyMatches (some (cellOf o "user_id")) (Row.get u "user_id") = false) ∨
       (∀ p ∈ payments,
          keyMatches (some (cellOf o "payment_id")) (Row.get p "payment_id") = false) ∨
       (∀ s2 ∈ shippers,
          keyMatches (some (cellOf o "shipper_id")) (Row.get s2 "shipper_id") = false) ∨
       (∀ rt ∈ ratings,
          keyMatches (some (cellOf o "rating_id")) (Row.get rt "rating_id") = false)) →
      (∀ o2 ∈ orders, cellOf o2 "order_id" = cellOf o "order_id" → o2 = o) →
      ∀ out, transform_fact_orders (mkSource users payments shippers ratings
          vouchers orders products cats items) = Except.ok out →
        ∀ x ∈ out.rows, ¬ Row.get x "order_id" = some (cellOf o "order_id")) ∧
    (∀ o ∈ orders,
      (∃ u ∈ users, keyMatches (Row.get o "user_id") (Row.get u "user_id") = true) →
      (∃ p ∈ payments,
        keyMatches (Row.get o "payment_id") (Row.get p "payment_id") = true) →
      (∃ s2 ∈ shippers,
        keyMatches (Row.get o "shipper_id") (Row.get s2 "shipper_id") = true) →
      (∃ rt ∈ ratings,
        keyMatches (Row.get o "rating_id") (Row.get rt "rating_id") = true) →
      (∀ v ∈ vouchers,
        keyMatches (some (cellOf o "voucher_id")) (Row.get v "voucher_id") = false) →
      (∃ j, fact_orders_joined (mkSource users payments shippers ratings vouchers
          orders products cats items) = Except.ok j ∧
        ∃ m ∈ j.rows,
          Row.get m "order_id" = some (cellOf o "order_id") ∧
          Row.get m "voucher_name" = some Val.vNull ∧
          Row.get m "voucher_price" = some Val.vNull ∧
          Row.get m "voucher_created" = some Val.vNull) ∧
      (∃ out, transform_fact_orders (mkSource users payments shippers ratings
          vouchers orders products cats items) = Except.ok out ∧
        ∃ x ∈ out.rows,
          Row.get x "order_id" = some (cellOf o "order_id") ∧
          Row.get x "voucher_id" = some (cellOf o "voucher_id"))) := by
  constructor
  · intro o ho hdisj huniq out hout x hx
    obtain ⟨j, hjoin, hrows⟩ := transform_fact_orders_rows hout
    rw [hrows] at hx
    obtain ⟨m, hmmem, rfl⟩ := List.mem_map.mp hx
    intro hgetx
    rw [reshapeRow_get _ m "order_id" (by decide)] at hgetx
    have hmo : cellOf m "order_id" = cellOf o "order_id" := Option.some.inj hgetx
    obtain ⟨l, hlmem, hlo, hus, hps, hss, hrs⟩ :=
      fact_orders_joined_origin hjoin m hmmem
    have hlo2 : cellOf l "order_id" = cellOf o "order_id" := by
      rw [← hmo, cellOf_of_get hlo]
    obtain rfl := huniq l hlmem hlo2
    rcases hdisj with hno | hno | hno | hno
    · obtain ⟨u, humem, hkm⟩ := hus
      rw [hno u humem] at hkm
      exact Bool.noConfusion hkm
    · obtain ⟨p, hpmem, hkm⟩ := hps
      rw [hno p hpmem] at hkm
      exact Bool.noConfusion hkm
    · obtain ⟨s2, hsmem, hkm⟩ := hss
      rw [hno s2 hsmem] at hkm
      exact Bool.noConfusion hkm
    · obtain ⟨rt, hrtmem, hkm⟩ := hrs
      rw [hno rt hrtmem] at hkm
      exact Bool.noConfusion hkm
  · intro o ho hu hp hs hrt hv
    obtain ⟨j, hjoin, m, hmmem, hmo, hmv, hmn, hmp2, hmc⟩ :=
      fact_orders_joined_preserves ho hu hp hs hrt hv
    refine ⟨⟨j, hjoin, m, hmmem, hmo, hmn, hmp2, hmc⟩, ?_⟩
    have hcols := fact_orders_joined_cols hjoin
    have hproj : ∀ c ∈ ["order_id", "order_date", "user_id", "payment_id",
        "shipper_id", "order_price", "order_discount", "voucher_id",
        "order_total", "rating_id"], c ∈ j.cols := by
      rw [hcols]
      decide
    refine Exists.intro (DataFrame.mk
      ["order_id", "order_date", "user_id", "payment_id", "shipper_id",
       "order_price", "order_discount", "voucher_id", "order_total", "rating_id"]
      (j.rows.map (reshapeRow ["order_id", "order_date", "user_id", "payment_id",
        "shipper_id", "order_price", "order_discount", "voucher_id",
        "order_total", "rating_id"]))) ⟨?_, ?_⟩
    · rw [transform_fact_orders_eq, hjoin, except_bind_ok]
      exact project_ok_of hproj
    · refine ⟨reshapeRow ["order_id", "order_date", "user_id", "payment_id",
        "shipper_id", "order_price", "order_discount", "voucher_id",
        "order_total", "rating_id"] m, List.mem_map_of_mem _ hmmem, ?_, ?_⟩
      · rw [reshapeRow_get _ m "order_id" (by decide), cellOf_of_get hmo]
      · rw [reshapeRow_get _ m "voucher_id" (by decide), cellOf_of_get hmv]

/-- An order referencing payment 99, which does not exist in the seeded
payments table. -/
def c3_order_bad : Row :=
  [("order_id", Val.vInt 2), ("order_date", Val.vStr "2021-07-01"),
   ("user_id", Val.vInt 1), ("payment_id", Val.vInt 99), ("shipper_id", Val.vInt 1),
   ("order_price", Val.vInt 70), ("order_discount", Val.vInt 0),
   ("voucher_id", Val.vNull), ("order_total", Val.vInt 70),
   ("rating_id", Val.vInt 1)]

/-- C3 witness: over the seeded dimensions with two orders — one referencing
the missing payment 99, one fully matched with a null voucher — the first
key never reaches the output and the second survives with NULL voucher
attributes. -/
theorem C3_fact_orders_join_semantics_witness :
    (∀ out, transform_fact_orders (mkSource [seed_user] [seed_payment]
        [seed_shipper] [seed_rating] [] [seed_order, c3_order_bad] [seed_product]
        [seed_category] [seed_order_item]) = Except.ok out →
      ∀ x ∈ out.rows,
        ¬ Row.get x "order_id" = some (cellOf c3_order_bad "order_id")) ∧
    ((∃ j, fact_orders_joined (mkSource [seed_user] [seed_payment] [seed_shipper]
        [seed_rating] [] [seed_order, c3_order_bad] [seed_product] [seed_category]
        [seed_order_item]) = Except.ok j ∧
      ∃ m ∈ j.rows,
        Row.get m "order_id" = some (cellOf seed_order "order_id") ∧
        Row.get m "voucher_name" = some Val.vNull ∧
        Row.get m "voucher_price" = some Val.vNull ∧
        Row.get m "voucher_created" = some Val.vNull) ∧
    (∃ out, transform_fact_orders (mkSource [seed_user] [seed_payment]
        [seed_shipper] [seed_rating] [] [seed_order, c3_order_bad] [seed_product]
        [seed_category] [seed_order_item]) = Except.ok out ∧
      ∃ x ∈ out.rows,
        Row.get x "order_id" = some (cellOf seed_order "order_id") ∧
        Row.get x "voucher_id" = some (cellOf seed_order "voucher_id"))) :=
  ⟨(C3_fact_orders_join_semantics [seed_user] [seed_payment] [seed_shipper]
      [seed_rating] [] [seed_order, c3_order_bad] [seed_product] [seed_category]
      [seed_order_item]).1 c3_order_bad (by decide)
      (Or.inr (Or.inl (by decide))) (by decide),
   (C3_fact_orders_join_semantics [seed_user] [seed_payment] [seed_shipper]
      [seed_rating] [] [seed_order, c3_order_bad] [seed_product] [seed_category]
      [seed_order_item]).2 seed_order (by decide) (by decide) (by decide)
      (by decide) (by decide) (by decide)⟩
